import Mathlib

/-!
Verification development for the GBDI `converters` repository.

The repository normalizes heterogeneous tabular LCA datasets (SLiCE, BECD,
CarbEnMats, …) into one canonical project/assembly/product model.  This file
shallowly embeds the mapping-and-merge core of the Python sources
(`src/slice/slice.py`, `src/becd/becd.py`, `src/carbenmats/carbenmats.py`,
together with their earlier flat variants `src/slice.py`, `src/becd.py`,
`src/carbenmats.py`) and proves the testable properties stated in the design
document about that core.

Modelling conventions:
* a Python `dict` is an insertion-ordered association list (`dictGet?`,
  `dictSet`, `dictContains` below mirror `d[k]`, `d[k] = v`, `k in d`);
* Python floats on the clean decimal fixtures used here are rationals (`ℚ`);
* a Python function that can raise is embedded as an `Except String` value,
  the error string carrying the exception's message;
* `uuid.uuid5(NAMESPACE_URL, s)` is embedded bit-for-bit: UTF-8 encoding,
  SHA-1, and RFC 4122 version/variant patching and hex formatting.
-/

set_option maxRecDepth 100000

namespace Converters

/-! ### Python dictionaries as insertion-ordered association lists -/

/-- Python `d[k]` (as an `Option`, `none` standing for a raised `KeyError`). -/
def dictGet? {κ α : Type} [DecidableEq κ] (d : List (κ × α)) (k : κ) :
    Option α :=
  match d with
  | [] => none
  | (k', v) :: rest => if k' = k then some v else dictGet? rest k

/-- Python `d[k] = v`: update in place if the key exists (keeping its
position, as CPython dicts do), otherwise append at the end. -/
def dictSet {κ α : Type} [DecidableEq κ] (d : List (κ × α)) (k : κ) (v : α) :
    List (κ × α) :=
  match d with
  | [] => [(k, v)]
  | (k', v') :: rest =>
      if k' = k then (k, v) :: rest else (k', v') :: dictSet rest k v

/-- Python `k in d`. -/
def dictContains {κ α : Type} [DecidableEq κ] (d : List (κ × α)) (k : κ) :
    Bool :=
  match d with
  | [] => false
  | (k', _) :: rest => k' = k || dictContains rest k

/-! ### Python scalar helpers -/

/-- ASCII lowercasing of one character. -/
def lowerChar (c : Char) : Char :=
  if 65 ≤ c.toNat ∧ c.toNat ≤ 90 then Char.ofNat (c.toNat + 32) else c

/-- Python `str.lower()` (the vocabularies handled by the converters are
ASCII, where per-character ASCII lowercasing agrees with it). -/
def pyLower (s : String) : String := String.mk (s.data.map lowerChar)

/-- Whether the first string leads the second (character-wise). -/
def leadsList : List Char → List Char → Bool
  | [], _ => true
  | _ :: _, [] => false
  | c :: cs, d :: ds => c = d && leadsList cs ds

/-- Python `s.startswith(pre)`. -/
def strStartsWith (s pre : String) : Bool := leadsList pre.data s.data

/-- Split a character list at every occurrence of `sep`. -/
def splitCharAux (sep : Char) : List Char → List Char → List (List Char)
  | [], acc => [acc.reverse]
  | c :: cs, acc =>
      if c = sep then acc.reverse :: splitCharAux sep cs []
      else splitCharAux sep cs (c :: acc)

/-- Python `s.split(sep)` for a one-character separator. -/
def pySplit (s : String) (sep : Char) : List String :=
  (splitCharAux sep s.data []).map String.mk

/-- Python truthiness of a string: `""` is falsy, anything else truthy. -/
def pyTruthy (s : String) : Bool := s ≠ ""

/-- Digit run to a natural number; `none` when empty or non-digit. -/
def digitsToNat? (cs : List Char) : Option Nat :=
  match cs with
  | [] => none
  | _ =>
    if cs.all Char.isDigit then
      some (cs.foldl (fun acc c => acc * 10 + (c.toNat - 48)) 0)
    else none

/-- Python `float(s)` on plain decimal literals (optional sign, digits,
optional fractional part); `none` models the raised `ValueError`.  The
converters' numeric fixtures are clean decimals, for which exact rational
arithmetic coincides with the Python float results. -/
def pyFloat (s : String) : Option ℚ :=
  let core : List Char → Option ℚ := fun cs =>
    match splitCharAux '.' cs [] with
    | [ip] => (digitsToNat? ip).map (fun n => (n : ℚ))
    | [ip, fp] =>
        if ip = [] then
          (digitsToNat? fp).map (fun f => (f : ℚ) / (10 : ℚ) ^ fp.length)
        else if fp = [] then
          (digitsToNat? ip).map (fun n => (n : ℚ))
        else
          match digitsToNat? ip, digitsToNat? fp with
          | some n, some f => some ((n : ℚ) + (f : ℚ) / (10 : ℚ) ^ fp.length)
          | _, _ => none
    | _ => none
  match s.data with
  | '-' :: rest => (core rest).map Neg.neg
  | '+' :: rest => core rest
  | cs => core cs

/-- Python `int(s)` on plain integer literals; `none` models `ValueError`. -/
def pyInt (s : String) : Option Int :=
  match s.data with
  | '-' :: rest => (digitsToNat? rest).map (fun n => -(n : Int))
  | '+' :: rest => (digitsToNat? rest).map (fun n => (n : Int))
  | cs => (digitsToNat? cs).map (fun n => (n : Int))

/-! ### Canonical enumerations of the external `lcax` data model

Only the variants the converter sources mention are modelled; each enum
carries the Python member `value` string where the code reads it, and an
`ofName` lookup mirroring Python's `Enum[name]` access (whose failure is a
`KeyError`). -/

/-- Impact categories (`lcax.ImpactCategoryKey`); members used by the
converters. -/
inductive ImpactCategoryKey where
  | gwp | gwp_bio | gwp_lul | odp | ap | ep_fw | ep_mar | ep_ter
  | pocp | wdp | pm | irp | etp_fw | htp_c | htp_nc | sqp
  deriving DecidableEq, Repr

namespace ImpactCategoryKey

/-- The Python member's `.value` string. -/
def value : ImpactCategoryKey → String
  | gwp => "gwp" | gwp_bio => "gwp_bio" | gwp_lul => "gwp_lul"
  | odp => "odp" | ap => "ap" | ep_fw => "ep_fw" | ep_mar => "ep_mar"
  | ep_ter => "ep_ter" | pocp => "pocp" | wdp => "wdp" | pm => "pm"
  | irp => "irp" | etp_fw => "etp_fw" | htp_c => "htp_c"
  | htp_nc => "htp_nc" | sqp => "sqp"

/-- Python `ImpactCategoryKey[name]`. -/
def ofName (s : String) : Option ImpactCategoryKey :=
  if s = "gwp" then some gwp
  else if s = "gwp_bio" then some gwp_bio
  else if s = "gwp_lul" then some gwp_lul
  else if s = "odp" then some odp
  else if s = "ap" then some ap
  else if s = "ep_fw" then some ep_fw
  else if s = "ep_mar" then some ep_mar
  else if s = "ep_ter" then some ep_ter
  else if s = "pocp" then some pocp
  else if s = "wdp" then some wdp
  else if s = "pm" then some pm
  else if s = "irp" then some irp
  else if s = "etp_fw" then some etp_fw
  else if s = "htp_c" then some htp_c
  else if s = "htp_nc" then some htp_nc
  else if s = "sqp" then some sqp
  else none

end ImpactCategoryKey

/-- Life-cycle stages (`lcax.LifeCycleStage`). -/
inductive LifeCycleStage where
  | a0 | a1a3 | a4 | a5 | b1 | b2 | b3 | b4 | b5 | b6 | b7 | b8
  | c1 | c2 | c3 | c4 | d
  deriving DecidableEq, Repr

namespace LifeCycleStage

/-- The Python member's `.value` (and member name) string. -/
def value : LifeCycleStage → String
  | a0 => "a0" | a1a3 => "a1a3" | a4 => "a4" | a5 => "a5"
  | b1 => "b1" | b2 => "b2" | b3 => "b3" | b4 => "b4" | b5 => "b5"
  | b6 => "b6" | b7 => "b7" | b8 => "b8"
  | c1 => "c1" | c2 => "c2" | c3 => "c3" | c4 => "c4" | d => "d"

/-- Python `LifeCycleStage[name]`. -/
def ofName (s : String) : Option LifeCycleStage :=
  if s = "a0" then some a0
  else if s = "a1a3" then some a1a3
  else if s = "a4" then some a4
  else if s = "a5" then some a5
  else if s = "b1" then some b1
  else if s = "b2" then some b2
  else if s = "b3" then some b3
  else if s = "b4" then some b4
  else if s = "b5" then some b5
  else if s = "b6" then some b6
  else if s = "b7" then some b7
  else if s = "b8" then some b8
  else if s = "c1" then some c1
  else if s = "c2" then some c2
  else if s = "c3" then some c3
  else if s = "c4" then some c4
  else if s = "d" then some d
  else none

end LifeCycleStage

/-- Countries (`lcax.Country`): the variants the converter sources name,
plus the explicit `unknown` variant; `value` is the lowercase alpha-3 code
the BECD/CarbEnMats resolvers compare against. -/
inductive Country where
  | deu | ita | swe | gbr | unknown
  deriving DecidableEq, Repr

namespace Country

/-- The Python member's `.value` string. -/
def value : Country → String
  | deu => "deu" | ita => "ita" | swe => "swe" | gbr => "gbr"
  | unknown => "unknown"

/-- Python `for _country in Country` iteration order, restricted to the
modelled variants. -/
def all : List Country := [deu, ita, swe, gbr, unknown]

end Country

/-- Building types (`lcax.BuildingType`); members used by the converters. -/
inductive BuildingType where
  | new_construction_works | retrofit_works | operations | other | unknown
  deriving DecidableEq, Repr

/-- Python `BuildingType[name]`. -/
def BuildingType.ofName (s : String) : Option BuildingType :=
  if s = "new_construction_works" then some new_construction_works
  else if s = "retrofit_works" then some retrofit_works
  else if s = "operations" then some operations
  else if s = "other" then some other
  else if s = "unknown" then some unknown
  else none

/-- Building typologies (`lcax.BuildingTypology`); members used by the
converters. -/
inductive BuildingTypology where
  | residential | office | public | commercial | infrastructure
  | industrial | other | unknown
  deriving DecidableEq, Repr

/-- Python `BuildingTypology[name]`. -/
def BuildingTypology.ofName (s : String) : Option BuildingTypology :=
  if s = "residential" then some residential
  else if s = "office" then some office
  else if s = "public" then some public
  else if s = "commercial" then some commercial
  else if s = "infrastructure" then some infrastructure
  else if s = "industrial" then some industrial
  else if s = "other" then some other
  else if s = "unknown" then some unknown
  else none

/-- Roof types (`lcax.RoofType`); members used by the converters. -/
inductive RoofType where
  | flat | pitched | saddle | pyramid | other | unknown
  deriving DecidableEq, Repr

/-- Python `RoofType[name]`. -/
def RoofType.ofName (s : String) : Option RoofType :=
  if s = "flat" then some flat
  else if s = "pitched" then some pitched
  else if s = "saddle" then some saddle
  else if s = "pyramid" then some pyramid
  else if s = "other" then some other
  else if s = "unknown" then some unknown
  else none

/-- General energy classes (`lcax.GeneralEnergyClass`). -/
inductive GeneralEnergyClass where
  | standard | advanced | existing | unknown
  deriving DecidableEq, Repr

/-- Python `GeneralEnergyClass[name]`. -/
def GeneralEnergyClass.ofName (s : String) : Option GeneralEnergyClass :=
  if s = "standard" then some standard
  else if s = "advanced" then some advanced
  else if s = "existing" then some existing
  else if s = "unknown" then some unknown
  else none

/-- Locations (`lcax.Location`): the fields the converters set (`country`
is an `Option` because the BECD resolver can fall through and hand pydantic
a Python `None`). -/
structure Location where
  country : Option Country
  city : Option String
  address : Option String
  deriving DecidableEq, Repr

/-! ### The identity deriver: `str(uuid5(NAMESPACE_URL, content))`

Every converter derives entity identifiers with Python's
`uuid.uuid5(NAMESPACE_URL, content)` and serializes them with `str`.  The
embedding below is bit-level: UTF-8 encode the content, SHA-1 the namespace
bytes followed by it, patch in the RFC 4122 version-5 and variant bits, and
format as the canonical dashed hex string. -/

namespace UUID

/-- Two to the thirty-second, the word modulus of SHA-1. -/
def M32 : Nat := 4294967296

/-- Left-rotation of a 32-bit word. -/
def rotl (k n : Nat) : Nat := ((n <<< k) ||| (n >>> (32 - k))) % M32

/-- UTF-8 encoding of one code point. -/
def utf8Char (c : Char) : List Nat :=
  let n := c.toNat
  if n < 128 then [n]
  else if n < 2048 then [192 + n / 64, 128 + n % 64]
  else if n < 65536 then [224 + n / 4096, 128 + (n / 64) % 64, 128 + n % 64]
  else [240 + n / 262144, 128 + (n / 4096) % 64, 128 + (n / 64) % 64,
        128 + n % 64]

/-- `s.encode("utf-8")`. -/
def utf8Bytes (s : String) : List Nat := (s.data.map utf8Char).flatten

/-- `k`-byte big-endian encoding of `n`. -/
def beBytes (k n : Nat) : List Nat :=
  (List.range k).map (fun i => (n >>> (8 * (k - 1 - i))) % 256)

/-- SHA-1 message padding: `0x80`, zeros, then the 64-bit bit length. -/
def sha1Pad (msg : List Nat) : List Nat :=
  let padLen := (64 - ((msg.length + 9) % 64)) % 64
  msg ++ [128] ++ List.replicate padLen 0 ++ beBytes 8 (8 * msg.length)

/-- Big-endian 32-bit words of a byte list. -/
def toWords : List Nat → List Nat
  | b0 :: b1 :: b2 :: b3 :: rest =>
      (((b0 * 256 + b1) * 256 + b2) * 256 + b3) :: toWords rest
  | _ => []

/-- Message-schedule extension: append `w[i] := rotl1 (w[i-3] ^^^ w[i-8]
^^^ w[i-14] ^^^ w[i-16])` the given number of times. -/
def sha1Extend (w : List Nat) : Nat → List Nat
  | 0 => w
  | n + 1 =>
      let i := w.length
      sha1Extend
        (w ++ [rotl 1 ((w.getD (i - 3) 0) ^^^ (w.getD (i - 8) 0) ^^^
          (w.getD (i - 14) 0) ^^^ (w.getD (i - 16) 0))]) n

/-- The SHA-1 round function for round `i`. -/
def sha1F (i b c d : Nat) : Nat :=
  if i < 20 then (b &&& c) ||| ((b ^^^ 4294967295) &&& d)
  else if i < 40 then b ^^^ c ^^^ d
  else if i < 60 then (b &&& c) ||| (b &&& d) ||| (c &&& d)
  else b ^^^ c ^^^ d

/-- The SHA-1 round constant for round `i`. -/
def sha1K (i : Nat) : Nat :=
  if i < 20 then 0x5A827999 else if i < 40 then 0x6ED9EBA1
  else if i < 60 then 0x8F1BBCDC else 0xCA62C1D6

/-- The 80 compression rounds, `n` of them left, next round index `i`. -/
def sha1RoundsAux (w : List Nat) :
    Nat → Nat × Nat × Nat × Nat × Nat → Nat → Nat × Nat × Nat × Nat × Nat
  | _, st, 0 => st
  | i, (a, b, c, d, e), n + 1 =>
      let temp := (rotl 5 a + sha1F i b c d + e + sha1K i + w.getD i 0) % M32
      sha1RoundsAux w (i + 1) (temp, a, rotl 30 b, c, d) n

/-- Compress one 64-byte block into the running state. -/
def sha1Block (h : Nat × Nat × Nat × Nat × Nat) (block : List Nat) :
    Nat × Nat × Nat × Nat × Nat :=
  let w := sha1Extend (toWords block) 64
  let (h0, h1, h2, h3, h4) := h
  let (a, b, c, d, e) := sha1RoundsAux w 0 (h0, h1, h2, h3, h4) 80
  ((h0 + a) % M32, (h1 + b) % M32, (h2 + c) % M32, (h3 + d) % M32,
   (h4 + e) % M32)

/-- Fold the blocks of an already padded message (fuel = block count). -/
def sha1Loop (h : Nat × Nat × Nat × Nat × Nat) (bytes : List Nat) :
    Nat → Nat × Nat × Nat × Nat × Nat
  | 0 => h
  | fuel + 1 =>
      match bytes with
      | [] => h
      | _ => sha1Loop (sha1Block h (bytes.take 64)) (bytes.drop 64) fuel

/-- SHA-1 digest (20 bytes) of a byte list. -/
def sha1 (msg : List Nat) : List Nat :=
  let padded := sha1Pad msg
  let (h0, h1, h2, h3, h4) :=
    sha1Loop (0x67452301, 0xEFCDAB89, 0x98BADCFE, 0x10325476, 0xC3D2E1F0)
      padded (padded.length / 64)
  beBytes 4 h0 ++ beBytes 4 h1 ++ beBytes 4 h2 ++ beBytes 4 h3 ++ beBytes 4 h4

/-- The bytes of `uuid.NAMESPACE_URL`
(`6ba7b811-9dad-11d1-80b4-00c04fd430c8`). -/
def namespaceURL : List Nat :=
  [0x6b, 0xa7, 0xb8, 0x11, 0x9d, 0xad, 0x11, 0xd1,
   0x80, 0xb4, 0x00, 0xc0, 0x4f, 0xd4, 0x30, 0xc8]

/-- The 16 bytes of `uuid5(NAMESPACE_URL, name)`: leading SHA-1 bytes with
the version nibble forced to 5 and the variant bits to `10`. -/
def uuid5Bytes (name : String) : List Nat :=
  let digest := sha1 (namespaceURL ++ utf8Bytes name)
  (List.range 16).map (fun i =>
    if i = 6 then (digest.getD 6 0) % 16 + 0x50
    else if i = 8 then (digest.getD 8 0) % 64 + 0x80
    else digest.getD i 0)

/-- Lowercase hex digit. -/
def hexChar (n : Nat) : Char :=
  if n < 10 then Char.ofNat (48 + n) else Char.ofNat (87 + n)

/-- Lowercase hex string of a byte list. -/
def bytesHex (l : List Nat) : String :=
  String.mk ((l.map (fun b => [hexChar (b / 16), hexChar (b % 16)])).flatten)

/-- `str(uuid5(NAMESPACE_URL, name))`: the canonical 8-4-4-4-12 dashed hex
form.  This is the repository's `derive(namespace, content)` with its single
process-wide namespace constant baked in. -/
def uuid5 (name : String) : String :=
  let b := uuid5Bytes name
  bytesHex (b.take 4) ++ "-" ++ bytesHex ((b.drop 4).take 2) ++ "-" ++
    bytesHex ((b.drop 6).take 2) ++ "-" ++ bytesHex ((b.drop 8).take 2) ++
    "-" ++ bytesHex (b.drop 10)

end UUID

/-! ### Synonym tables

The `"<family>.<variant>"` entries of a converter's `mapping.json`, in
table (insertion) order.  The `mapping.json` files themselves are data
shipped next to the sources; the synonym lookups below are parameterized by
the table so the proofs quantify over every possible mapping content. -/

abbrev SynonymTable := List (String × List String)

/-- Shared shape of the categorical lookups (`get_building_type`,
`get_building_typology`, `get_general_energy_class` in
`src/slice/slice.py`, `get_roof_type` in `src/carbenmats/carbenmats.py`,
…): scan the `"<family>.<variant>"` keys with a non-empty (truthy) synonym
list in table order; the first whose list contains the lowercased raw value
wins and its `<variant>` name is returned. -/
def familyMatch (family : String) (table : SynonymTable) (data : String) :
    Option String :=
  match table with
  | [] => none
  | (key, syns) :: rest =>
      if strStartsWith key (family ++ ".") && !syns.isEmpty &&
          syns.contains (pyLower data) then
        some ((pySplit key '.').getD 1 "")
      else familyMatch family rest data

namespace Slice

/-- One SLiCE parquet row, restricted to the columns the converter reads
(`wanted_fields` in `src/slice/slice.py`).  String-valued columns are
modelled as `String`; the numeric `ind_*` impact indicator columns are
exposed through `ind`, indexed by column name.  The column each logical
`mapping.json` key resolves to is the one hard-coded in the flat variant
`src/slice.py` of the same converter. -/
structure Row where
  building_archetype_code : String
  stock_region_name : String
  stock_activity_type_name : String
  building_use_subtype_name : String
  building_energy_performance_name : String
  element_class_sfb : String
  element_class_generic_name : String
  worksection_class_sfb : String
  techflow_name_mmg : String
  lcs_en15978 : String
  ind : String → ℚ

/-- `get_location` (`src/slice/slice.py`, lines 40-54): region synonym →
country, silently defaulting to `deu`; total, never raising.
`MAPPING["location.country"]` resolves to `stock_region_name`
(cf. `src/slice.py` line 292). -/
def get_location (row : Row) : Location :=
  let region := pyLower row.stock_region_name
  let country :=
    if region = "continental" then Country.deu
    else if region = "mediterranean" then Country.ita
    else if region = "nordic" then Country.swe
    else if region = "oceanic" then Country.gbr
    else Country.deu
  { country := some country, city := none, address := none }

/-- `get_building_type` (`src/slice/slice.py`, lines 69-77); a raw value
matching no configured synonym raises `NotImplementedError(f"Unknown
building type: {data}")`, embedded as the `Except.error` carrying that
message. -/
def get_building_type (table : SynonymTable) (data : String) :
    Except String BuildingType :=
  match familyMatch "building_type" table data with
  | some name =>
      match BuildingType.ofName name with
      | some t => .ok t
      | none => .error ("KeyError: " ++ name)
  | none => .error ("Unknown building type: " ++ data)

/-- `get_building_typology` (`src/slice/slice.py`, lines 57-66). -/
def get_building_typology (table : SynonymTable) (data : String) :
    Except String (List BuildingTypology) :=
  match familyMatch "building_typology" table data with
  | some name =>
      match BuildingTypology.ofName name with
      | some t => .ok [t]
      | none => .error ("KeyError: " ++ name)
  | none => .error ("Unknown building typology: " ++ data)

/-- `get_general_energy_class` (`src/slice/slice.py`, lines 80-88). -/
def get_general_energy_class (table : SynonymTable) (data : String) :
    Except String GeneralEnergyClass :=
  match familyMatch "general_energy_class" table data with
  | some name =>
      match GeneralEnergyClass.ofName name with
      | some t => .ok t
      | none => .error ("KeyError: " ++ name)
  | none => .error ("Unknown general energy class: " ++ data)

/-- `LCAxLifeCycleStage.from_str` (`src/slice/slice.py`, lines 110-148);
its variants coincide with `LifeCycleStage`'s. -/
def from_str (name : String) : Except String LifeCycleStage :=
  let n := pyLower name
  if n = "a0" then .ok .a0
  else if n = "a1-3" then .ok .a1a3
  else if n = "a4" then .ok .a4
  else if n = "a5" then .ok .a5
  else if n = "b1" then .ok .b1
  else if n = "b2" then .ok .b2
  else if n = "b3" then .ok .b3
  else if n = "b4" then .ok .b4
  else if n = "b5" then .ok .b5
  else if n = "b6" then .ok .b6
  else if n = "b7" then .ok .b7
  else if n = "b8" then .ok .b8
  else if n = "c1" then .ok .c1
  else if n = "c2" then .ok .c2
  else if n = "c3" then .ok .c3
  else if n = "c4" then .ok .c4
  else if n = "d" then .ok .d
  else .error ("Unknown life cycle stage: " ++ n)

/-- The `impact_sets` pairs of `LCAxTechFlow.add_row`: impact category ↦
indicator column (`src/slice.py`, lines 178-195; the package variant reads
the same pairs from the `impact_category_key.*` mapping entries). -/
def impact_sets : List (ImpactCategoryKey × String) :=
  [(.gwp, "ind_GWP_Tot"), (.gwp_bio, "ind_GWP_Bio"),
   (.gwp_lul, "ind_GWP_LuLuc"), (.odp, "ind_ODP"), (.ap, "ind_AP"),
   (.ep_fw, "ind_EP_Fw"), (.ep_mar, "ind_EP_Mar"), (.ep_ter, "ind_EP_Ter"),
   (.pocp, "ind_PCOP"), (.wdp, "ind_WDP"), (.pm, "ind_PM"),
   (.irp, "ind_IRP"), (.etp_fw, "ind_ETP_Fw"), (.htp_c, "ind_HTP_c"),
   (.htp_nc, "ind_HTP_nc"), (.sqp, "ind_SQP")]

/-- `LCAxTechFlow` (`src/slice/slice.py`, lines 151-198): the technical-flow
impact record.  `impacts` is the two-level dict impact-category value →
life-cycle stage value → accumulated number (pydantic coerces the enum keys
of `from_row`'s initial dict to their string values).  Constant metadata
fields (`declared_unit`, `format_version`, …) carry no per-row information
and are not modelled. -/
structure TechFlow where
  id : String
  name : String
  impacts : List (String × List (String × ℚ))
  deriving DecidableEq, Repr

/-- `LCAxTechFlow.add_impact` (`src/slice/slice.py`, lines 152-155) — the
impact aggregator's `accumulate`: missing `(category, stage)` cells are
first set to `0`, then `+= value`; a category absent from `impacts`
altogether would be a Python `KeyError`. -/
def TechFlow.add_impact (tf : TechFlow) (key : ImpactCategoryKey)
    (stage : String) (value : ℚ) : Except String TechFlow :=
  match dictGet? tf.impacts key.value with
  | none => .error ("KeyError: " ++ key.value)
  | some inner =>
      let inner' := dictSet inner stage ((dictGet? inner stage).getD 0 + value)
      .ok { tf with impacts := dictSet tf.impacts key.value inner' }

/-- The `for impact in impact_sets` loop of `LCAxTechFlow.add_row`:
add each indicator column's value under the parsed stage. -/
def TechFlow.add_impacts (tf : TechFlow) (stage : String) (row : Row) :
    List (ImpactCategoryKey × String) → Except String TechFlow
  | [] => .ok tf
  | p :: rest =>
      match TechFlow.add_impact tf p.1 stage (row.ind p.2) with
      | .error e => .error e
      | .ok t => TechFlow.add_impacts t stage row rest

/-- `LCAxTechFlow.add_row` (`src/slice/slice.py`, lines 157-162). -/
def TechFlow.add_row (tf : TechFlow) (row : Row) : Except String TechFlow :=
  match from_str row.lcs_en15978 with
  | .error e => .error e
  | .ok stage => TechFlow.add_impacts tf stage.value row impact_sets

/-- The initial `impacts` dict of `LCAxTechFlow.from_row` (lines 166-183):
all sixteen impact categories mapped to empty stage dicts. -/
def initImpacts : List (String × List (String × ℚ)) :=
  [("gwp", []), ("gwp_bio", []), ("gwp_lul", []), ("odp", []), ("ap", []),
   ("ep_fw", []), ("ep_mar", []), ("ep_ter", []), ("pocp", []), ("wdp", []),
   ("pm", []), ("irp", []), ("etp_fw", []), ("htp_c", []), ("htp_nc", []),
   ("sqp", [])]

/-- `LCAxTechFlow.from_row` (`src/slice/slice.py`, lines 164-198). -/
def TechFlow.from_row (row : Row) : Except String TechFlow :=
  TechFlow.add_row
    { id := UUID.uuid5 row.techflow_name_mmg,
      name := row.techflow_name_mmg,
      impacts := initImpacts } row

/-- The product content key the source actually computes
(`row[...products.id"][0]] or "" + row[...products.id"][1]]`, line 314 of
`src/slice/slice.py`; columns `worksection_class_sfb`,
`techflow_name_mmg`).  Python parses the expression as `a or ("" + b)`: the
work-section code when it is truthy, otherwise the technical-flow name —
not their concatenation. -/
def productContent (row : Row) : String :=
  if pyTruthy row.worksection_class_sfb then row.worksection_class_sfb
  else "" ++ row.techflow_name_mmg

/-- `LCAxProduct` (`src/slice/slice.py`, lines 201-224). -/
structure Product where
  id : String
  name : String
  description : String
  reference_service_life : ℚ
  impact_data : TechFlow
  quantity : ℚ
  deriving DecidableEq, Repr

/-- `LCAxProduct.from_row` (lines 205-224); the `name` field is built from
the same `or "" +` expression as the identifier content. -/
def Product.from_row (row : Row) : Except String Product :=
  match TechFlow.from_row row with
  | .error e => .error e
  | .ok tf =>
      .ok { id := UUID.uuid5 (productContent row),
            name := productContent row,
            description := "",
            reference_service_life := 50,
            impact_data := tf,
            quantity := 1 }

/-- `LCAxProduct.add_row` (lines 202-203). -/
def Product.add_row (p : Product) (row : Row) : Except String Product :=
  match TechFlow.add_row p.impact_data row with
  | .error e => .error e
  | .ok tf => .ok { p with impact_data := tf }

/-- `lcax.Classification` as used by `LCAxAssembly.from_row`. -/
structure Classification where
  system : String
  code : String
  name : String
  deriving DecidableEq, Repr

/-- `LCAxAssembly` (`src/slice/slice.py`, lines 227-246). -/
structure Assembly where
  id : String
  name : String
  classification : List Classification
  quantity : ℚ
  products : List (String × Product)
  deriving DecidableEq, Repr

/-- `LCAxAssembly.from_row` (lines 228-246); `MAPPING["assemblies.id"]`
resolves to `element_class_sfb`, `MAPPING["assemblies.name"]` to
`element_class_generic_name` (cf. `src/slice.py`, lines 268-274). -/
def Assembly.from_row (row : Row) : Assembly :=
  { id := UUID.uuid5 row.element_class_sfb,
    name := row.element_class_generic_name,
    classification := [{ system := "SfB", code := row.element_class_sfb,
                         name := row.element_class_generic_name }],
    quantity := 1,
    products := [] }

/-- The `project_info` fields `LCAxProject.from_row` computes per row. -/
structure ProjectInfo where
  gross_floor_area : ℚ
  building_type : BuildingType
  building_typology : List BuildingTypology
  floors_above_ground : ℚ
  general_energy_class : GeneralEnergyClass
  roof_type : RoofType
  deriving DecidableEq, Repr

/-- `LCAxProject` (`src/slice/slice.py`, lines 249-307): fields carrying
per-row information (constant impact-category/stage lists and software
metadata are not modelled). -/
structure Project where
  id : String
  name : String
  location : Location
  project_info : ProjectInfo
  assemblies : List (String × Assembly)
  deriving DecidableEq, Repr

/-- `LCAxProject.from_row` (lines 250-307); `MAPPING["id"]` resolves to
`building_archetype_code`, and the three categorical fields to the
`stock_activity_type_name`, `building_use_subtype_name`,
`building_energy_performance_name` columns (cf. `src/slice.py`,
lines 290-344). -/
def Project.from_row (table : SynonymTable) (row : Row) :
    Except String Project :=
  match get_building_type table row.stock_activity_type_name with
  | .error e => .error e
  | .ok btype =>
  match get_building_typology table row.building_use_subtype_name with
  | .error e => .error e
  | .ok btypology =>
  match get_general_energy_class table
      row.building_energy_performance_name with
  | .error e => .error e
  | .ok eclass =>
      .ok { id := UUID.uuid5 row.building_archetype_code,
            name := "Undefined",
            location := get_location row,
            project_info :=
              { gross_floor_area := 1,
                building_type := btype,
                building_typology := btypology,
                floors_above_ground := 1,
                general_energy_class := eclass,
                roof_type := RoofType.unknown },
            assemblies := [] }

/-- `update_project` (`src/slice/slice.py`, lines 310-324): derive the
assembly and product identifiers from the row's content keys, create the
assembly/product on first sight, and merge (`add_row`) the impacts into an
existing product on repeat. -/
def update_project (project : Project) (row : Row) : Except String Project :=
  let assembly_id := UUID.uuid5 row.element_class_sfb
  let product_id := UUID.uuid5 (productContent row)
  let asms :=
    if dictContains project.assemblies assembly_id then project.assemblies
    else dictSet project.assemblies assembly_id (Assembly.from_row row)
  match dictGet? asms assembly_id with
  | none => .error ("KeyError: " ++ assembly_id)
  | some asm =>
      let productsE :=
        if dictContains asm.products product_id then
          match dictGet? asm.products product_id with
          | none => Except.error ("KeyError: " ++ product_id)
          | some prod =>
              match Product.add_row prod row with
              | .error e => Except.error e
              | .ok p => Except.ok (dictSet asm.products product_id p)
        else
          match Product.from_row row with
          | .error e => Except.error e
          | .ok p => Except.ok (dictSet asm.products product_id p)
      match productsE with
      | .error e => .error e
      | .ok products =>
          let asm' := { asm with products := products }
          .ok { project with assemblies := dictSet asms assembly_id asm' }

/-- The row loop of `get_projects_by_archetypes` (`src/slice/slice.py`,
lines 369-377): group rows by `building_archetype_code`, creating the
project on first sight, then merge every row into its project.  The final
`calculate_project` rollup is external (`lcax`) and out of scope. -/
def processRows (table : SynonymTable)
    (projects : List (String × Project)) :
    List Row → Except String (List (String × Project))
  | [] => .ok projects
  | row :: rest =>
      let archetype := row.building_archetype_code
      let projectsE :=
        if dictContains projects archetype then Except.ok projects
        else
          match Project.from_row table row with
          | .error e => Except.error e
          | .ok p => Except.ok (dictSet projects archetype p)
      match projectsE with
      | .error e => .error e
      | .ok projects1 =>
          match dictGet? projects1 archetype with
          | none => .error ("KeyError: " ++ archetype)
          | some p =>
              match update_project p row with
              | .error e => .error e
              | .ok p' => processRows table (dictSet projects1 archetype p') rest


/-! #### Test fixtures and observers for the SLiCE merge scenarios -/

/-- A SLiCE row fixture: work-section code `ws`, element class `sfb`,
technical flow `tf`, and a single numeric contribution `v` in the
`ind_GWP_Tot` column, at life-cycle stage `A1-3`. -/
def mkRow (sfb ws tf : String) (v : ℚ) : Row :=
  { building_archetype_code := "P1"
    stock_region_name := "Nordic"
    stock_activity_type_name := "Existing buildings"
    building_use_subtype_name := "Multi-family house"
    building_energy_performance_name := "Standard"
    element_class_sfb := sfb
    element_class_generic_name := "Steel"
    worksection_class_sfb := ws
    techflow_name_mmg := tf
    lcs_en15978 := "A1-3"
    ind := fun c => if c = "ind_GWP_Tot" then v else 0 }

/-- A SLiCE row fixture with a chosen `stock_region_name`. -/
def regionRow (region : String) : Row :=
  { mkRow "steel" "" "flow-1" 0 with stock_region_name := region }

/-- Process two rows in sequence through `update_project` (the two-row
instance of the `get_projects_by_archetypes` merge loop for one project). -/
def run2 (p : Project) (r1 r2 : Row) : Except String Project :=
  match update_project p r1 with
  | .error e => .error e
  | .ok p1 => update_project p1 r2

/-- Observer: the accumulated value of one `(category, stage)` cell of one
product of one assembly of a merge result. -/
def projectCell (pe : Except String Project) (aid pid cat stage : String) :
    Option ℚ :=
  match pe with
  | .error _ => none
  | .ok p =>
      match dictGet? p.assemblies aid with
      | none => none
      | some asm =>
          match dictGet? asm.products pid with
          | none => none
          | some prod =>
              dictGet? ((dictGet? prod.impact_data.impacts cat).getD []) stage

/-- Observer: one `(category, stage)` cell of an `add_impact` result. -/
def impactCell (te : Except String TechFlow) (cat stage : String) :
    Option ℚ :=
  match te with
  | .error _ => none
  | .ok tf => dictGet? ((dictGet? tf.impacts cat).getD []) stage

/-- Observer: the product dict of one assembly of a merge result. -/
def productsAt (pe : Except String Project) (aid : String) :
    List (String × Product) :=
  match pe with
  | .error _ => []
  | .ok p =>
      match dictGet? p.assemblies aid with
      | none => []
      | some asm => asm.products

/-- Observer: the assemblies of a merge result. -/
def assembliesOf (pe : Except String Project) : List (String × Assembly) :=
  match pe with
  | .error _ => []
  | .ok p => p.assemblies

/-- The per-category cells after accumulating a single `A1-3` contribution
`v` (the `ind_GWP_Tot` cell) plus `0` for each other indicator column. -/
def impactsAfter (v : ℚ) : List (String × List (String × ℚ)) :=
  [("gwp", [("a1a3", v)]), ("gwp_bio", [("a1a3", 0)]),
   ("gwp_lul", [("a1a3", 0)]), ("odp", [("a1a3", 0)]),
   ("ap", [("a1a3", 0)]), ("ep_fw", [("a1a3", 0)]),
   ("ep_mar", [("a1a3", 0)]), ("ep_ter", [("a1a3", 0)]),
   ("pocp", [("a1a3", 0)]), ("wdp", [("a1a3", 0)]),
   ("pm", [("a1a3", 0)]), ("irp", [("a1a3", 0)]),
   ("etp_fw", [("a1a3", 0)]), ("htp_c", [("a1a3", 0)]),
   ("htp_nc", [("a1a3", 0)]), ("sqp", [("a1a3", 0)])]

/-- The technical flow built from one `mkRow` with flow name `tfname`. -/
def tfAfter (tfname : String) (v : ℚ) : TechFlow :=
  { id := UUID.uuid5 tfname, name := tfname, impacts := impactsAfter v }

/-- The product built from one row. -/
def prodAfter (row : Row) (v : ℚ) : Product :=
  { id := UUID.uuid5 (productContent row), name := productContent row,
    description := "", reference_service_life := 50,
    impact_data := tfAfter row.techflow_name_mmg v, quantity := 1 }

/-- The assembly state after merging two rows with distinct flows. -/
def asmTwo (sfb tf1 tf2 : String) (x y : ℚ) : Assembly :=
  { id := UUID.uuid5 sfb, name := "Steel",
    classification := [{ system := "SfB", code := sfb, name := "Steel" }],
    quantity := 1,
    products := [(UUID.uuid5 tf1, prodAfter (mkRow sfb "" tf1 x) x),
                 (UUID.uuid5 tf2, prodAfter (mkRow sfb "" tf2 y) y)] }

/-- A scenario starting project with no assemblies. -/
def blankProject : Project :=
  { id := "", name := "Undefined",
    location := { country := none, city := none, address := none },
    project_info :=
      { gross_floor_area := 0, building_type := BuildingType.other,
        building_typology := [], floors_above_ground := 0,
        general_energy_class := GeneralEnergyClass.unknown,
        roof_type := RoofType.unknown },
    assemblies := [] }

/-- The fixed content-key corpus over which identifier distinctness is
checked (archetype, element-class, flow and work-section keys). -/
def idCorpus : List String :=
  ["CON_MFH_NEW_STD", "steel", "flow-1", "flow-2", "22", "22flow-1", "P1"]

end Slice

/-! ### The external `iso3166` country database interface

`countries.get(raw)` of the external `iso3166` package returns a country
record or raises `KeyError`.  The resolvers are parameterized by the lookup
so the statements quantify over every database content; `alpha3` is the only
field the converters read. -/

/-- An `iso3166` country record, restricted to the read field. -/
structure ISOCountry where
  alpha3 : String
  deriving DecidableEq, Repr

/-- A small stand-in database used by concrete witnesses. -/
def isoTable0 : String → Option ISOCountry := fun s =>
  if s = "United Kingdom" then some { alpha3 := "GBR" }
  else if s = "Germany" then some { alpha3 := "DEU" }
  else none

/-- A small synonym table used by the C3 witness. -/
def table0 : SynonymTable :=
  [("building_type.new_construction_works", ["new buildings"]),
   ("building_typology.residential", ["multi-family house"]),
   ("general_energy_class.standard", ["standard"]),
   ("roof_type.flat", ["flat roof"])]

namespace BECD

/-- One BECD CSV row, as `csv.DictReader` supplies it: a mapping from
column name to string value. -/
abbrev BRow := String → String

/-- `date_to_year` (`src/becd/becd.py`, lines 41-45): empty dates are
`None`; otherwise `strptime(date, "%d/%m/%Y %H:%M:%S").year`, a raised
`ValueError` on malformed input.  The calendar validation of `strptime`
beyond the `dd/mm/yyyy hh:mm:ss` shape is not modelled. -/
def date_to_year (date : String) : Except String (Option Int) :=
  if date = "" then .ok none
  else
    match pySplit date '/' with
    | [_day, _month, rest] =>
        match pySplit rest ' ' with
        | [year, _time] =>
            match pyInt year with
            | some n => .ok (some n)
            | none => .error ("ValueError: " ++ date)
        | _ => .error ("ValueError: " ++ date)
    | _ => .error ("ValueError: " ++ date)

/-- `get_country` (`src/becd/becd.py`, lines 63-70): an unrecognized raw
value (`KeyError` from `countries.get`) degrades to `Country.unknown`;
a recognized record is matched against the canonical alpha-3 values, the
loop falling through to Python `None` if no variant matches. -/
def get_country (lookup : String → Option ISOCountry) (data : String) :
    Option Country :=
  match lookup data with
  | none => some Country.unknown
  | some c => Country.all.find? (fun k => k.value == pyLower c.alpha3)

/-- `get_location` (`src/becd/becd.py`, lines 73-77): the city is kept only
when truthy and not the `"no data"` placeholder (case-insensitively). -/
def get_location (lookup : String → Option ISOCountry)
    (city country : String) : Location :=
  { country := get_country lookup country,
    city := if pyTruthy city && pyLower city ≠ "no data" then some city
            else none,
    address := none }

/-- A BECD aggregate-results table: impact category → stage → value. -/
abbrev BResults := List (ImpactCategoryKey × List (LifeCycleStage × ℚ))

/-- The `assemblies.results.*` mapping items (category/stage key and source
column) of the BECD `mapping.json`; columns per the flat variant
`src/becd.py`, lines 111-128. -/
def assembly_result_items : List (String × String) :=
  [("assemblies.results.gwp.a1a3", "A1ToA3"),
   ("assemblies.results.gwp.a4", "A4"),
   ("assemblies.results.gwp.a5", "A5"),
   ("assemblies.results.gwp.b1", "B1"),
   ("assemblies.results.gwp.b2", "B2"),
   ("assemblies.results.gwp.b3", "B3"),
   ("assemblies.results.gwp.b4", "B4"),
   ("assemblies.results.gwp.b5", "B5"),
   ("assemblies.results.gwp.c1", "C1"),
   ("assemblies.results.gwp.c2", "C2"),
   ("assemblies.results.gwp.c3", "C3"),
   ("assemblies.results.gwp.c4", "C4"),
   ("assemblies.results.gwp.d", "D")]

/-- The `results.*` mapping items of the BECD `mapping.json`; columns per
`src/becd.py`, lines 130-147. -/
def project_result_items : List (String × String) :=
  [("results.gwp.a1a3", "Total_A1ToA3"),
   ("results.gwp.a4", "Total_A4"),
   ("results.gwp.a5", "Total_A5"),
   ("results.gwp.b1", "Total_B1"),
   ("results.gwp.b2", "Total_B2"),
   ("results.gwp.b3", "Total_B3"),
   ("results.gwp.b4", "Total_B4"),
   ("results.gwp.b5", "Total_B5"),
   ("results.gwp.c1", "Total_C1"),
   ("results.gwp.c2", "Total_C2"),
   ("results.gwp.c3", "Total_C3"),
   ("results.gwp.c4", "Total_C4"),
   ("results.gwp.d", "Total_D")]

/-- The shared loop of `get_assembly_results` / `get_project_results`
(`src/becd/becd.py`, lines 126-151): starting from `{gwp: {}}`, assign
`float(row[column])` (raising on parse failure) under the category and
stage parsed from each dotted key (`KeyError` when the key names an
unknown enum member or a category missing from the accumulator). -/
def resultsLoop (row : BRow) (catIdx stageIdx : Nat) :
    List (String × String) → BResults → Except String BResults
  | [], acc => .ok acc
  | (key, col) :: rest, acc =>
      match ImpactCategoryKey.ofName ((pySplit key '.').getD catIdx "") with
      | none => .error ("KeyError: " ++ key)
      | some cat =>
          match LifeCycleStage.ofName ((pySplit key '.').getD stageIdx "") with
          | none => .error ("KeyError: " ++ key)
          | some stage =>
              match dictGet? acc cat with
              | none => .error ("KeyError: " ++ cat.value)
              | some inner =>
                  match pyFloat (row col) with
                  | none => .error ("ValueError: " ++ row col)
                  | some v =>
                      resultsLoop row catIdx stageIdx rest
                        (dictSet acc cat (dictSet inner stage v))

/-- `get_assembly_results` (`src/becd/becd.py`, lines 126-137). -/
def get_assembly_results (row : BRow) : Except String BResults :=
  resultsLoop row 2 3 assembly_result_items [(ImpactCategoryKey.gwp, [])]

/-- `get_project_results` (`src/becd/becd.py`, lines 140-151). -/
def get_project_results (row : BRow) : Except String BResults :=
  resultsLoop row 1 2 project_result_items [(ImpactCategoryKey.gwp, [])]

/-- `get_thermal_envelope_area` (`src/becd/becd.py`, lines 154-161):
`sum(float(row[key] or 0) for key in [FacadeArea, RoofArea])`. -/
def get_thermal_envelope_area (row : BRow) : Except String ℚ :=
  match (if pyTruthy (row "FacadeArea") then pyFloat (row "FacadeArea")
         else some 0),
        (if pyTruthy (row "RoofArea") then pyFloat (row "RoofArea")
         else some 0) with
  | some a, some b => .ok (a + b)
  | _, _ => .error "ValueError: thermal envelope area"

/-- A BECD technical flow (`lcax TechFlow` as `update_project` builds it);
constant metadata fields are not modelled. -/
structure BTechFlow where
  id : String
  name : String
  impacts : BResults
  deriving DecidableEq, Repr

/-- A BECD product (`update_project`, lines 83-111). -/
structure BProduct where
  id : String
  name : String
  description : String
  impact_data : BTechFlow
  quantity : ℚ
  reference_service_life : String
  results : BResults
  deriving DecidableEq, Repr

/-- A BECD assembly (`update_project`, lines 112-121). -/
structure BAssembly where
  id : String
  name : String
  quantity : ℚ
  products : List (String × BProduct)
  results : BResults
  deriving DecidableEq, Repr

/-- The `project_info` descriptor `add_project` populates (lines 183-209). -/
structure BProjectInfo where
  building_completion_year : Option Int
  building_height : ℚ
  building_footprint : ℚ
  gross_floor_area : ℚ
  building_type : BuildingType
  building_typology : List BuildingTypology
  floors_above_ground : Int
  floors_below_ground : Option String
  general_energy_class : GeneralEnergyClass
  roof_type : RoofType
  deriving DecidableEq, Repr

/-- The `meta_data.assessment` block of `add_project` (lines 216-237). -/
structure BAssessment where
  year : Option Int
  date : String
  en15978_compliance : Bool
  rics_2017_compliance : Bool
  verified : Bool
  verified_info : String
  assessor_name : String
  assessor_email : String
  assessor_organization : String
  quantity_source : String
  deriving DecidableEq, Repr

/-- The `meta_data.structural` block of `add_project` (lines 269-289). -/
structure BStructural where
  column_grid_long : ℚ
  foundation_type : String
  vertical_gravity_system : String
  secondary_vertical_gravity_system : String
  horizontal_gravity_system : String
  secondary_horizontal_gravity_system : String
  deriving DecidableEq, Repr

/-- The `meta_data` record of `add_project` (lines 210-290). -/
structure BMetaData where
  construction_start : String
  construction_year_existing_building : Option Int
  assessment : BAssessment
  cost : Option ℚ
  demolished_area : Option ℚ
  newly_built_area : Option ℚ
  retrofitted_area : Option ℚ
  project_site_area : Option ℚ
  thermal_envelope_area : ℚ
  structural : BStructural
  deriving DecidableEq, Repr

/-- A BECD project (`add_project`, lines 164-299); fields carrying per-row
information. -/
structure BProject where
  id : String
  name : String
  description : String
  reference_study_period : String
  impact_categories : List ImpactCategoryKey
  life_cycle_stages : List LifeCycleStage
  location : Location
  results : BResults
  project_info : BProjectInfo
  meta_data : BMetaData
  lca_software : String
  goal_and_scope_definition : String
  assemblies : List (String × BAssembly)
  deriving DecidableEq, Repr

/-- `update_project` (`src/becd/becd.py`, lines 80-123): a row flagged
`EmissionsIncluded == "No"` is returned unchanged; otherwise one product
wrapped in one assembly is built from the row (all three `results` fields
from the same `get_assembly_results` value) and stored under the assembly
identifier, overwriting any previous assembly with that identifier. -/
def update_project (project : BProject) (row : BRow) :
    Except String BProject :=
  if row "EmissionsIncluded" = "No" then .ok project
  else
    match get_assembly_results row with
    | .error e => .error e
    | .ok results =>
        let pid := UUID.uuid5 (row "EntityElementName")
        let product : BProduct :=
          { id := pid,
            name := row "EntityElementName",
            description := "",
            impact_data :=
              { id := UUID.uuid5 (row "EntityElementName"),
                name := row "EntityElementName",
                impacts := results },
            quantity := 1,
            reference_service_life := row "RefStudyPeriod",
            results := results }
        let assembly : BAssembly :=
          { id := UUID.uuid5 (row "EntityElementName"),
            name := row "EntityElementName",
            quantity := 1,
            products := [(product.id, product)],
            results := results }
        .ok { project with
                assemblies := dictSet project.assemblies assembly.id assembly }

/-- `get_building_type` (`src/becd/becd.py`, lines 48-60); same shape as
the SLiCE family getters. -/
def get_building_type (table : SynonymTable) (data : String) :
    Except String BuildingType :=
  match familyMatch "building_type" table data with
  | some name =>
      match BuildingType.ofName name with
      | some t => .ok t
      | none => .error ("KeyError: " ++ name)
  | none => .error ("Unknown building type: " ++ data)

/-- `add_project` (`src/becd/becd.py`, lines 164-299): build the project
record from the row (every parse failure propagating as the corresponding
Python exception), then run `update_project` on the same row.  Mapping
columns per the flat variant `src/becd.py`, lines 149-244. -/
def add_project (table : SynonymTable)
    (lookup : String → Option ISOCountry) (row : BRow) :
    Except String BProject :=
  match get_project_results row with
  | .error e => .error e
  | .ok results =>
  match get_building_type table (row "ProjectType") with
  | .error e => .error e
  | .ok btype =>
  match date_to_year (row "ConstructionEndDate") with
  | .error e => .error e
  | .ok bcy =>
  match pyFloat (row "TotalHeightAboveGround") with
  | none => .error ("ValueError: " ++ row "TotalHeightAboveGround")
  | some height =>
  match pyFloat (row "BuildingFootprint") with
  | none => .error ("ValueError: " ++ row "BuildingFootprint")
  | some footprint =>
  match pyFloat (row "SizePrimary") with
  | none => .error ("ValueError: " ++ row "SizePrimary")
  | some gfa =>
  match pyInt (row "AboveGroundStorey") with
  | none => .error ("ValueError: " ++ row "AboveGroundStorey")
  | some floors =>
  match date_to_year (row "ConstructionOriginalBuildingDate") with
  | .error e => .error e
  | .ok cyeb =>
  match date_to_year (row "DateofAssessment") with
  | .error e => .error e
  | .ok ayear =>
  match (if pyTruthy (row "ConstructionCost")
         then (pyFloat (row "ConstructionCost")).map some
         else some none) with
  | none => .error ("ValueError: " ++ row "ConstructionCost")
  | some cost =>
  match (if pyTruthy (row "DemolishedGIA")
         then (pyFloat (row "DemolishedGIA")).map some
         else some none) with
  | none => .error ("ValueError: " ++ row "DemolishedGIA")
  | some demolished =>
  match (if pyTruthy (row "NewBuildGIA")
         then (pyFloat (row "NewBuildGIA")).map some
         else some none) with
  | none => .error ("ValueError: " ++ row "NewBuildGIA")
  | some newly =>
  match (if pyTruthy (row "RefurbishedGIA")
         then (pyFloat (row "RefurbishedGIA")).map some
         else some none) with
  | none => .error ("ValueError: " ++ row "RefurbishedGIA")
  | some retrofitted =>
  match (if pyTruthy (row "OverallSiteArea")
         then (pyFloat (row "OverallSiteArea")).map some
         else some none) with
  | none => .error ("ValueError: " ++ row "OverallSiteArea")
  | some site =>
  match get_thermal_envelope_area row with
  | .error e => .error e
  | .ok thermal =>
  match pyFloat (row "StructuralGridX") with
  | none => .error ("ValueError: " ++ row "StructuralGridX")
  | some grid =>
      update_project
        { id := (row "EntityCode").replace "BECD-" "",
          name := row "EntityName",
          description := row "EntityDescription",
          reference_study_period := row "RefStudyPeriod",
          impact_categories :=
            if results.isEmpty then [] else results.map Prod.fst,
          life_cycle_stages :=
            if results.isEmpty then []
            else ((dictGet? results ImpactCategoryKey.gwp).getD []).map
              Prod.fst,
          location := get_location lookup (row "Location") (row "Country"),
          results := results,
          project_info :=
            { building_completion_year := bcy,
              building_height := height,
              building_footprint := footprint,
              gross_floor_area := gfa,
              building_type := btype,
              building_typology := [BuildingTypology.unknown],
              floors_above_ground := floors,
              floors_below_ground :=
                if pyTruthy (row "UndergroundStorey")
                then some (row "UndergroundStorey") else none,
              general_energy_class := GeneralEnergyClass.unknown,
              roof_type := RoofType.unknown },
          meta_data :=
            { construction_start := row "ConstructionStartDate",
              construction_year_existing_building := cyeb,
              assessment :=
                { year := ayear,
                  date := row "DateofAssessment",
                  en15978_compliance :=
                    row "AssessmentCompliantBS_EN15978" = "Fully compliant",
                  rics_2017_compliance :=
                    row "CompliantCarbon" =
                      "Fully compliant with 2017 version",
                  verified := row "ThirdPartyVerification" = "Yes",
                  verified_info := row "ThirdPartyVerificationDetail",
                  assessor_name := row "AssessorName",
                  assessor_email := row "AssessorEmail",
                  assessor_organization := row "AssessorAffiliation",
                  quantity_source := row "MaterialQuantitiesComeFrom" },
              cost := cost,
              demolished_area := demolished,
              newly_built_area := newly,
              retrofitted_area := retrofitted,
              project_site_area := site,
              thermal_envelope_area := thermal,
              structural :=
                { column_grid_long := grid,
                  foundation_type := row "PSCFoundationTypePrimary",
                  vertical_gravity_system :=
                    row "PSCVerticalElementStructureTypePrimary",
                  secondary_vertical_gravity_system :=
                    row "PSCVerticalElementStructureTypeSecondary",
                  horizontal_gravity_system :=
                    row "PSCHorizontalElementTypePrimary",
                  secondary_horizontal_gravity_system :=
                    row "PSCHorizontalElementTypeSecondary" } },
          lca_software := row "AssessmentSoftware",
          goal_and_scope_definition := row "AssessmentScope",
          assemblies := [] } row

/-- One step of the `process_projects` row loop (`src/becd/becd.py`,
lines 309-324): a previously-unseen `EntityCode` registers `add_project`'s
result; a seen one is updated in place via `update_project`. -/
def processRow (table : SynonymTable)
    (lookup : String → Option ISOCountry)
    (projects : List (String × BProject)) (row : BRow) :
    Except String (List (String × BProject)) :=
  let project_id := row "EntityCode"
  if dictContains projects project_id then
    match dictGet? projects project_id with
    | none => .error ("KeyError: " ++ project_id)
    | some p =>
        match update_project p row with
        | .error e => .error e
        | .ok p' => .ok (dictSet projects project_id p')
  else
    match add_project table lookup row with
    | .error e => .error e
    | .ok p => .ok (dictSet projects project_id p)


/-- A BECD row fixture: emissions excluded, project `BECD-0001`, all
required numeric columns parseable, dates empty. -/
def becdRow0 : BRow := fun c =>
  if c = "EmissionsIncluded" then "No"
  else if c = "EntityCode" then "BECD-0001"
  else if c = "ProjectType" then "New built"
  else if c = "TotalHeightAboveGround" then "10"
  else if c = "BuildingFootprint" then "100"
  else if c = "SizePrimary" then "1000"
  else if c = "StructuralGridX" then "5"
  else if c = "AboveGroundStorey" then "3"
  else if strStartsWith c "Total_" then "1"
  else ""

/-- The BECD synonym table used by concrete witnesses (entry per the flat
variant `src/becd.py`, lines 46-50). -/
def becdTable0 : SynonymTable :=
  [("building_type.new_construction_works", ["new built"])]

/-- A blank BECD project fixture. -/
def blankBProject : BProject :=
  { id := "", name := "", description := "", reference_study_period := "",
    impact_categories := [], life_cycle_stages := [],
    location := { country := none, city := none, address := none },
    results := [], project_info :=
      { building_completion_year := none, building_height := 0,
        building_footprint := 0, gross_floor_area := 0,
        building_type := BuildingType.other, building_typology := [],
        floors_above_ground := 0, floors_below_ground := none,
        general_energy_class := GeneralEnergyClass.unknown,
        roof_type := RoofType.unknown },
    meta_data :=
      { construction_start := "", construction_year_existing_building := none,
        assessment :=
          { year := none, date := "", en15978_compliance := false,
            rics_2017_compliance := false, verified := false,
            verified_info := "", assessor_name := "", assessor_email := "",
            assessor_organization := "", quantity_source := "" },
        cost := none, demolished_area := none, newly_built_area := none,
        retrofitted_area := none, project_site_area := none,
        thermal_envelope_area := 0,
        structural :=
          { column_grid_long := 0, foundation_type := "",
            vertical_gravity_system := "",
            secondary_vertical_gravity_system := "",
            horizontal_gravity_system := "",
            secondary_horizontal_gravity_system := "" } },
    lca_software := "", goal_and_scope_definition := "", assemblies := [] }

end BECD

namespace Carbenmats

/-- `get_roof_type` (`src/carbenmats/carbenmats.py`, lines 34-42); same
shape as the other family getters. -/
def get_roof_type (table : SynonymTable) (data : String) :
    Except String RoofType :=
  match familyMatch "roof_type" table data with
  | some name =>
      match RoofType.ofName name with
      | some t => .ok t
      | none => .error ("KeyError: " ++ name)
  | none => .error ("Unknown roof type: " ++ data)

/-- `get_country` (`src/carbenmats/carbenmats.py`, lines 45-49): unlike the
BECD variant there is no `try/except`, so an unrecognized raw value
propagates the `KeyError` from `countries.get`. -/
def get_country (lookup : String → Option ISOCountry) (data : String) :
    Except String (Option Country) :=
  match lookup data with
  | none => .error ("KeyError: " ++ data)
  | some c => .ok (Country.all.find? (fun k => k.value == pyLower c.alpha3))

/-- `get_value_or_none` (`src/carbenmats/carbenmats.py`, lines 126-128):
`row[_key] if row[_key] and row[_key].lower() != "no data" else None`,
with `_key = MAPPING[key]` the mapped column (the mapping is the `m`
parameter). -/
def get_value_or_none (m : String → String) (row : String → String)
    (key : String) : Option String :=
  if pyTruthy (row (m key)) && pyLower (row (m key)) ≠ "no data" then
    some (row (m key))
  else none

/-- The result loop of `get_results` (`src/carbenmats/carbenmats.py`,
lines 106-115): only truthy (non-empty) source cells are stored, as
`float(row[value]) * 50`; categories other than the pre-seeded `gwp`
would be a `KeyError`. -/
def resultsLoop (row : String → String) :
    List (String × String) → BECD.BResults → Except String BECD.BResults
  | [], acc => .ok acc
  | (key, col) :: rest, acc =>
      if pyTruthy (row col) then
        match ImpactCategoryKey.ofName ((pySplit key '.').getD 1 "") with
        | none => .error ("KeyError: " ++ key)
        | some cat =>
            match LifeCycleStage.ofName ((pySplit key '.').getD 2 "") with
            | none => .error ("KeyError: " ++ key)
            | some stage =>
                match dictGet? acc cat with
                | none => .error ("KeyError: " ++ cat.value)
                | some inner =>
                    match pyFloat (row col) with
                    | none => .error ("ValueError: " ++ row col)
                    | some v =>
                        resultsLoop row rest
                          (dictSet acc cat (dictSet inner stage (v * 50)))
      else resultsLoop row rest acc

/-- `get_results` (`src/carbenmats/carbenmats.py`, lines 106-115): run the
loop from `{gwp: {}}`, then return `None` when the `gwp` bucket stayed
empty. -/
def get_results (items : List (String × String)) (row : String → String) :
    Except String (Option BECD.BResults) :=
  match resultsLoop row items [(ImpactCategoryKey.gwp, [])] with
  | .error e => .error e
  | .ok acc =>
      match dictGet? acc ImpactCategoryKey.gwp with
      | none => .error "KeyError: gwp"
      | some inner => .ok (if inner.isEmpty then none else some acc)

/-- The `results.*` items of the CarbEnMats `mapping.json`; columns per the
flat variant `src/carbenmats.py`, lines 126-141. -/
def result_items : List (String × String) :=
  [("results.gwp.a1a3", "GHG_A123_total"),
   ("results.gwp.a4", "GHG_A45_total"),
   ("results.gwp.b1", "GHG_B1234_total"),
   ("results.gwp.b6", "GHG_B67_total"),
   ("results.gwp.c1", "GHG_C12_total"),
   ("results.gwp.c3", "GHG_C34_total")]

/-- The canonical dotted key of a `results.gwp.<stage>` mapping item. -/
def stageKey (st : LifeCycleStage) : String := "results.gwp." ++ st.value

/-- Observer: one stage cell of a `get_results` value. -/
def cellOf (res : Option BECD.BResults) (st : LifeCycleStage) : Option ℚ :=
  match res with
  | none => none
  | some acc => dictGet? ((dictGet? acc ImpactCategoryKey.gwp).getD []) st


/-- Observer: one stage cell of a whole `get_results` outcome. -/
def cellOfResult (e : Except String (Option BECD.BResults))
    (st : LifeCycleStage) : Option ℚ :=
  match e with
  | .error _ => none
  | .ok res => cellOf res st

/-- Specification-side fold describing what the `get_results` loop stores
per stage: nothing for empty cells, `parsed * 50` otherwise. -/
def foldStages (row : String → String) :
    List (LifeCycleStage × String) → List (LifeCycleStage × ℚ) →
      List (LifeCycleStage × ℚ)
  | [], inner => inner
  | (st, col) :: rest, inner =>
      if pyTruthy (row col) then
        foldStages row rest
          (dictSet inner st ((pyFloat (row col)).getD 0 * 50))
      else foldStages row rest inner

/-- The stage/column pairs behind `result_items`. -/
def sts0 : List (LifeCycleStage × String) :=
  [(LifeCycleStage.a1a3, "GHG_A123_total"),
   (LifeCycleStage.a4, "GHG_A45_total"),
   (LifeCycleStage.b1, "GHG_B1234_total"),
   (LifeCycleStage.b6, "GHG_B67_total"),
   (LifeCycleStage.c1, "GHG_C12_total"),
   (LifeCycleStage.c3, "GHG_C34_total")]

/-- A CarbEnMats row fixture: one non-empty result cell, the rest empty. -/
def rowCM : String → String := fun c =>
  if c = "GHG_A123_total" then "2" else ""

end Carbenmats


end Converters

/-! ## Theorems

Everything below is proof: first the dictionary laws, then the generic
entity-merger step lemmas, then the verification of the design document's
claims. -/

namespace Converters

theorem dictGet?_set_same {κ α : Type} [DecidableEq κ] (d : List (κ × α)) (k : κ)
    (v : α) : dictGet? (dictSet d k v) k = some v := by
  induction d with
  | nil => simp [dictGet?, dictSet]
  | cons hd tl ih =>
      obtain ⟨k', v'⟩ := hd
      by_cases h : k' = k <;> simp [dictGet?, dictSet, h, ih]

theorem dictGet?_set_other {κ α : Type} [DecidableEq κ] (d : List (κ × α)) (k k' : κ)
    (v : α) (h : k ≠ k') : dictGet? (dictSet d k v) k' = dictGet? d k' := by
  induction d with
  | nil => simp [dictGet?, dictSet, h]
  | cons hd tl ih =>
      obtain ⟨k0, v0⟩ := hd
      by_cases h0 : k0 = k
      · subst h0
        simp [dictGet?, dictSet, h]
      · by_cases h1 : k0 = k' <;>
          simp [dictGet?, dictSet, h0, h1, Ne.symm h, ih]

/-- Re-storing the value a key already holds leaves the dict unchanged. -/
theorem dictSet_self {κ α : Type} [DecidableEq κ] (d : List (κ × α)) (k : κ) (v : α)
    (h : dictGet? d k = some v) : dictSet d k v = d := by
  induction d with
  | nil => simp [dictGet?] at h
  | cons hd tl ih =>
      obtain ⟨k0, v0⟩ := hd
      by_cases h0 : k0 = k
      · subst h0
        simp [dictGet?] at h
        simp [dictSet, h]
      · simp [dictGet?, h0] at h
        simp [dictSet, h0, ih h]

/-- Storing twice under a key keeps only the second value. -/
theorem dictSet_set_same {κ α : Type} [DecidableEq κ] (d : List (κ × α)) (k : κ)
    (v v' : α) : dictSet (dictSet d k v) k v' = dictSet d k v' := by
  induction d with
  | nil => simp [dictSet]
  | cons hd tl ih =>
      obtain ⟨k0, v0⟩ := hd
      by_cases h0 : k0 = k <;> simp [dictSet, h0, ih]

theorem dictContains_iff_get {κ α : Type} [DecidableEq κ] (d : List (κ × α)) (k : κ) :
    dictContains d k = true ↔ ∃ v, dictGet? d k = some v := by
  induction d with
  | nil => simp [dictContains, dictGet?]
  | cons hd tl ih =>
      obtain ⟨k0, v0⟩ := hd
      by_cases h0 : k0 = k <;> simp [dictContains, dictGet?, h0, ih]

namespace Slice

/-! #### Entity-merger step lemmas

The two-branch create-on-first-sight / merge-on-repeat transition of
`update_project`, characterized once generically (the derived identifiers
stay opaque terms here; concrete scenarios instantiate them). -/

/-- `update_project` on a row whose assembly identifier is unseen: a fresh
assembly is registered holding exactly the row's fresh product. -/
theorem update_project_new_assembly (p : Project) (row : Row)
    (prod : Product)
    (hnew : dictContains p.assemblies
      (UUID.uuid5 row.element_class_sfb) = false)
    (hfrom : Product.from_row row = .ok prod) :
    update_project p row =
      .ok { p with assemblies :=
        (dictSet p.assemblies (UUID.uuid5 row.element_class_sfb)
          { Assembly.from_row row with products :=
              ([(UUID.uuid5 (productContent row), prod)]) }) } := by
  have hget : dictGet? p.assemblies (UUID.uuid5 row.element_class_sfb) = none := by
    cases h : dictGet? p.assemblies (UUID.uuid5 row.element_class_sfb) with
    | none => rfl
    | some a =>
        have : dictContains p.assemblies
            (UUID.uuid5 row.element_class_sfb) = true :=
          (dictContains_iff_get _ _).mpr ⟨a, h⟩
        rw [this] at hnew
        cases hnew
  simp [update_project, hnew, hfrom, dictGet?_set_same, hget,
    dictSet_set_same, dictSet, dictContains]

/-- `update_project` on a row whose assembly exists but whose product
identifier is unseen: the product is added next to the existing ones. -/
theorem update_project_new_product (p : Project) (row : Row)
    (asm : Assembly) (prod : Product)
    (ha : dictGet? p.assemblies
      (UUID.uuid5 row.element_class_sfb) = some asm)
    (hnp : dictContains asm.products
      (UUID.uuid5 (productContent row)) = false)
    (hfrom : Product.from_row row = .ok prod) :
    update_project p row =
      .ok { p with assemblies :=
        (dictSet p.assemblies (UUID.uuid5 row.element_class_sfb)
          { asm with products :=
              (dictSet asm.products (UUID.uuid5 (productContent row)) prod) }) } := by
  have hc : dictContains p.assemblies
      (UUID.uuid5 row.element_class_sfb) = true :=
    (dictContains_iff_get _ _).mpr ⟨asm, ha⟩
  simp [update_project, hc, ha, hnp, hfrom]

/-- `update_project` on a repeat row (assembly and product already
registered): only the existing product's aggregate is merged via
`add_row`; identity and name fields stay put. -/
theorem update_project_repeat (p : Project) (row : Row)
    (asm : Assembly) (prod prod' : Product)
    (ha : dictGet? p.assemblies
      (UUID.uuid5 row.element_class_sfb) = some asm)
    (hpr : dictGet? asm.products
      (UUID.uuid5 (productContent row)) = some prod)
    (hadd : Product.add_row prod row = .ok prod') :
    update_project p row =
      .ok { p with assemblies :=
        (dictSet p.assemblies (UUID.uuid5 row.element_class_sfb)
          { asm with products :=
              (dictSet asm.products (UUID.uuid5 (productContent row)) prod') }) } := by
  have hc : dictContains p.assemblies
      (UUID.uuid5 row.element_class_sfb) = true :=
    (dictContains_iff_get _ _).mpr ⟨asm, ha⟩
  have hcp : dictContains asm.products
      (UUID.uuid5 (productContent row)) = true :=
    (dictContains_iff_get _ _).mpr ⟨prod, hpr⟩
  simp [update_project, hc, ha, hcp, hpr, hadd]


/-! #### Evaluation lemmas for the row fixtures -/

theorem append_empty_left (s : String) : "" ++ s = s := by
  cases s
  rfl

theorem pyLower_a13 : pyLower "A1-3" = "a1-3" := by decide

theorem mkRow_sfb_proj (sfb ws tf : String) (v : ℚ) :
    (mkRow sfb ws tf v).element_class_sfb = sfb := rfl

theorem mkRow_tf_proj (sfb ws tf : String) (v : ℚ) :
    (mkRow sfb ws tf v).techflow_name_mmg = tf := rfl

theorem mkRow_gen_proj (sfb ws tf : String) (v : ℚ) :
    (mkRow sfb ws tf v).element_class_generic_name = "Steel" := rfl

theorem mkRow_content_empty (sfb tf : String) (v : ℚ) :
    productContent (mkRow sfb "" tf v) = "" ++ tf := rfl

/-- `LCAxTechFlow.from_row` on a fixture row: all sixteen cells hold the
row's indicator values under stage `a1a3`. -/
theorem mkRow_tfrow (sfb ws tf : String) (x : ℚ) :
    TechFlow.from_row (mkRow sfb ws tf x) = .ok (tfAfter tf x) := by
  simp [TechFlow.from_row, mkRow, pyLower_a13, from_str, TechFlow.add_row,
    TechFlow.add_impacts, impact_sets, TechFlow.add_impact, initImpacts,
    dictGet?, dictSet, tfAfter, impactsAfter, ImpactCategoryKey.value,
    LifeCycleStage.value]

theorem mkRow_fromrow (sfb ws tf : String) (x : ℚ) :
    Product.from_row (mkRow sfb ws tf x) =
      .ok (prodAfter (mkRow sfb ws tf x) x) := by
  simp [Product.from_row, mkRow_tfrow, prodAfter, mkRow_tf_proj]

/-- Re-accumulating a second fixture row into an existing flow adds the
new contribution to each cell. -/
theorem mkRow_tfadd (sfb ws tf tfn : String) (x y : ℚ) :
    TechFlow.add_row (tfAfter tfn x) (mkRow sfb ws tf y) =
      .ok (tfAfter tfn (x + y)) := by
  simp [TechFlow.add_row, mkRow, pyLower_a13, from_str, TechFlow.add_impacts,
    impact_sets, TechFlow.add_impact, dictGet?, dictSet, tfAfter,
    impactsAfter, ImpactCategoryKey.value, LifeCycleStage.value]

theorem mkRow_padd (row : Row) (sfb ws tf : String) (x y : ℚ) :
    Product.add_row (prodAfter row x) (mkRow sfb ws tf y) =
      .ok { prodAfter row x with
            impact_data := tfAfter row.techflow_name_mmg (x + y) } := by
  simp [Product.add_row, prodAfter, mkRow_tfadd]

end Slice

open Slice in
/-- Claim C1: the impact aggregator `LCAxTechFlow.add_impact` initializes an
unset `(category, stage)` cell to the incoming value and otherwise adds the
value to the existing entry; hence merging two rows with identical project,
assembly, and product content keys carrying `x` then `y` for the same cell
leaves the product's technical-flow aggregate holding `x + y` there. -/
theorem claim_C1_repeat_row_accumulation :
    (∀ (tf : Slice.TechFlow) (key : ImpactCategoryKey) (stage : String)
       (v : ℚ) (inner : List (String × ℚ)),
       dictGet? tf.impacts key.value = some inner →
       dictGet? inner stage = none →
       Slice.impactCell (tf.add_impact key stage v) key.value stage =
         some v) ∧
    (∀ (tf : Slice.TechFlow) (key : ImpactCategoryKey) (stage : String)
       (v w : ℚ) (inner : List (String × ℚ)),
       dictGet? tf.impacts key.value = some inner →
       dictGet? inner stage = some w →
       Slice.impactCell (tf.add_impact key stage v) key.value stage =
         some (w + v)) ∧
    (∀ (p : Slice.Project) (sfb tf : String) (x y : ℚ),
       p.assemblies = [] →
       Slice.projectCell
           (Slice.run2 p (Slice.mkRow sfb "" tf x) (Slice.mkRow sfb "" tf y))
           (UUID.uuid5 sfb) (UUID.uuid5 tf) "gwp" "a1a3" = some (x + y)) := by
  refine ⟨?_, ?_, ?_⟩
  · intro tf key stage v inner h hnone
    simp [Slice.TechFlow.add_impact, h, Slice.impactCell, dictGet?_set_same,
      hnone]
  · intro tf key stage v w inner h hw
    simp [Slice.TechFlow.add_impact, h, Slice.impactCell, dictGet?_set_same,
      hw]
  · intro p sfb tf x y hp
    have h1 := update_project_new_assembly p (mkRow sfb "" tf x)
      (prodAfter (mkRow sfb "" tf x) x)
      (by simp [hp, dictContains]) (mkRow_fromrow sfb "" tf x)
    rw [hp] at h1
    simp only [dictSet, mkRow_sfb_proj, mkRow_content_empty,
      append_empty_left] at h1
    simp only [run2, h1]
    have h2 := update_project_repeat
      { p with assemblies :=
          [(UUID.uuid5 sfb,
            { Assembly.from_row (mkRow sfb "" tf x) with
                products := ([(UUID.uuid5 tf, prodAfter (mkRow sfb "" tf x) x)]) })] }
      (mkRow sfb "" tf y)
      { Assembly.from_row (mkRow sfb "" tf x) with
          products := ([(UUID.uuid5 tf, prodAfter (mkRow sfb "" tf x) x)]) }
      (prodAfter (mkRow sfb "" tf x) x)
      { prodAfter (mkRow sfb "" tf x) x with
          impact_data := tfAfter tf (x + y) }
      (by simp [dictGet?, mkRow_sfb_proj])
      (by simp [dictGet?, mkRow_content_empty, append_empty_left])
      (by simpa [mkRow_tf_proj] using mkRow_padd (mkRow sfb "" tf x) sfb "" tf x y)
    rw [h2]
    simp [projectCell, dictGet?, dictSet, mkRow_sfb_proj, mkRow_content_empty,
      append_empty_left, prodAfter, tfAfter, impactsAfter]

/-- Witness for C1: the accumulate contract at a concrete flow and the
two-row scenario at `x = 10`, `y = 5`. -/
theorem claim_C1_repeat_row_accumulation_witness :
    (dictGet? (Slice.tfAfter "flow-1" 3).impacts "gwp" =
      some [("a1a3", (3 : ℚ))]) ∧
    Slice.impactCell
        ((Slice.tfAfter "flow-1" 3).add_impact ImpactCategoryKey.gwp "b4" 4)
        "gwp" "b4" = some 4 ∧
    Slice.impactCell
        ((Slice.tfAfter "flow-1" 3).add_impact ImpactCategoryKey.gwp "a1a3" 4)
        "gwp" "a1a3" = some (3 + 4) ∧
    Slice.blankProject.assemblies = [] ∧
    Slice.projectCell
        (Slice.run2 Slice.blankProject (Slice.mkRow "steel" "" "flow-1" 10)
          (Slice.mkRow "steel" "" "flow-1" 5))
        (UUID.uuid5 "steel") (UUID.uuid5 "flow-1") "gwp" "a1a3" =
      some (10 + 5) := by
  refine ⟨rfl, ?_, ?_, rfl, ?_⟩
  · exact claim_C1_repeat_row_accumulation.1 _ ImpactCategoryKey.gwp "b4" 4
      [("a1a3", 3)] rfl rfl
  · exact claim_C1_repeat_row_accumulation.2.1 _ ImpactCategoryKey.gwp
      "a1a3" 4 3 [("a1a3", 3)] rfl rfl
  · exact claim_C1_repeat_row_accumulation.2.2 Slice.blankProject "steel"
      "flow-1" 10 5 rfl



open Slice in
/-- Claim C6: two rows with the same assembly content key but distinct
product content keys under one project merge into exactly one assembly
holding exactly two products, each with its own un-summed aggregate. -/
theorem claim_C6_row_group_merge (p : Slice.Project) (sfb tf1 tf2 : String)
    (x y : ℚ) (hp : p.assemblies = [])
    (hne : UUID.uuid5 tf1 ≠ UUID.uuid5 tf2) :
    (Slice.assembliesOf
        (Slice.run2 p (Slice.mkRow sfb "" tf1 x)
          (Slice.mkRow sfb "" tf2 y))).length = 1 ∧
    (Slice.productsAt
        (Slice.run2 p (Slice.mkRow sfb "" tf1 x) (Slice.mkRow sfb "" tf2 y))
        (UUID.uuid5 sfb)).map Prod.fst =
      [UUID.uuid5 tf1, UUID.uuid5 tf2] ∧
    Slice.projectCell
        (Slice.run2 p (Slice.mkRow sfb "" tf1 x) (Slice.mkRow sfb "" tf2 y))
        (UUID.uuid5 sfb) (UUID.uuid5 tf1) "gwp" "a1a3" = some x ∧
    Slice.projectCell
        (Slice.run2 p (Slice.mkRow sfb "" tf1 x) (Slice.mkRow sfb "" tf2 y))
        (UUID.uuid5 sfb) (UUID.uuid5 tf2) "gwp" "a1a3" = some y := by
  have h1 := update_project_new_assembly p (mkRow sfb "" tf1 x)
    (prodAfter (mkRow sfb "" tf1 x) x)
    (by simp [hp, dictContains]) (mkRow_fromrow sfb "" tf1 x)
  rw [hp] at h1
  simp only [dictSet, mkRow_sfb_proj, mkRow_content_empty,
    append_empty_left] at h1
  have h2 := update_project_new_product
    { p with assemblies :=
        [(UUID.uuid5 sfb,
          { Assembly.from_row (mkRow sfb "" tf1 x) with
              products := ([(UUID.uuid5 tf1, prodAfter (mkRow sfb "" tf1 x) x)]) })] }
    (mkRow sfb "" tf2 y)
    { Assembly.from_row (mkRow sfb "" tf1 x) with
        products := ([(UUID.uuid5 tf1, prodAfter (mkRow sfb "" tf1 x) x)]) }
    (prodAfter (mkRow sfb "" tf2 y) y)
    (by simp [dictGet?, mkRow_sfb_proj])
    (by simp [dictContains, mkRow_content_empty, append_empty_left, hne])
    (mkRow_fromrow sfb "" tf2 y)
  refine ⟨?_, ?_, ?_, ?_⟩ <;>
    simp only [run2, h1, h2] <;>
    simp [assembliesOf, productsAt, projectCell, dictGet?, dictSet,
      mkRow_sfb_proj, mkRow_content_empty, append_empty_left, hne,
      prodAfter, tfAfter, impactsAfter, mkRow_tf_proj]

/-- Witness for C6 at the spec's concrete scenario. -/
theorem claim_C6_row_group_merge_witness :
    UUID.uuid5 "flow-1" ≠ UUID.uuid5 "flow-2" ∧
    (Slice.assembliesOf
        (Slice.run2 Slice.blankProject (Slice.mkRow "steel" "" "flow-1" 10)
          (Slice.mkRow "steel" "" "flow-2" 5))).length = 1 ∧
    Slice.projectCell
        (Slice.run2 Slice.blankProject (Slice.mkRow "steel" "" "flow-1" 10)
          (Slice.mkRow "steel" "" "flow-2" 5))
        (UUID.uuid5 "steel") (UUID.uuid5 "flow-1") "gwp" "a1a3" = some 10 ∧
    Slice.projectCell
        (Slice.run2 Slice.blankProject (Slice.mkRow "steel" "" "flow-1" 10)
          (Slice.mkRow "steel" "" "flow-2" 5))
        (UUID.uuid5 "steel") (UUID.uuid5 "flow-2") "gwp" "a1a3" = some 5 := by
  have hne : UUID.uuid5 "flow-1" ≠ UUID.uuid5 "flow-2" := by decide
  have h := claim_C6_row_group_merge Slice.blankProject "steel" "flow-1"
    "flow-2" 10 5 rfl hne
  exact ⟨hne, h.1, h.2.2.1, h.2.2.2⟩

/-- Claim C5: identifier derivation is pure and deterministic —
`derive(namespace, k)` computed twice yields the identical identifier, and
over the fixed content-key corpus distinct keys derive distinct
identifiers. -/
theorem claim_C5_identifier_determinism :
    (∀ k : String, UUID.uuid5 k = UUID.uuid5 k) ∧
    Slice.idCorpus.Nodup ∧ (Slice.idCorpus.map UUID.uuid5).Nodup :=
  ⟨fun _ => rfl, by decide, by decide⟩

/-- Claim C2, evaluated at the failing input: the source computes the
product content key as `worksection or ("" + techflow)` (Python operator
precedence), so two rows sharing the non-empty work-section code `"22"` but
carrying different technical-flow names get the *same* content key `"22"`
and hence the same derived identifier, while the concatenations the spec
prescribes would derive different identifiers. -/
theorem claim_C2_product_content_eval :
    Slice.productContent (Slice.mkRow "steel" "22" "flow-1" 10) = "22" ∧
    Slice.productContent (Slice.mkRow "steel" "22" "flow-2" 5) = "22" ∧
    (Slice.mkRow "steel" "22" "flow-1" 10).techflow_name_mmg ≠
      (Slice.mkRow "steel" "22" "flow-2" 5).techflow_name_mmg ∧
    UUID.uuid5 (Slice.productContent (Slice.mkRow "steel" "22" "flow-1" 10)) =
      UUID.uuid5 (Slice.productContent (Slice.mkRow "steel" "22" "flow-2" 5)) ∧
    UUID.uuid5 ((Slice.mkRow "steel" "22" "flow-1" 10).worksection_class_sfb ++
        (Slice.mkRow "steel" "22" "flow-1" 10).techflow_name_mmg) ≠
      UUID.uuid5 ((Slice.mkRow "steel" "22" "flow-2" 5).worksection_class_sfb ++
        (Slice.mkRow "steel" "22" "flow-2" 5).techflow_name_mmg) :=
  ⟨rfl, rfl, by decide, rfl, by decide⟩

/-- Claim C9: the SLiCE region-to-country resolver is total and silently
defaults — `deu` for `continental` and for any unrecognized region, `ita`
for `mediterranean`, `swe` for `nordic`, `gbr` for `oceanic`
(case-insensitively); it never raises and never yields `unknown`. -/
theorem claim_C9_region_resolver_total (row : Slice.Row) :
    ((Slice.get_location row).country ≠ some Country.unknown) ∧
    (pyLower row.stock_region_name = "continental" →
      (Slice.get_location row).country = some Country.deu) ∧
    (pyLower row.stock_region_name = "mediterranean" →
      (Slice.get_location row).country = some Country.ita) ∧
    (pyLower row.stock_region_name = "nordic" →
      (Slice.get_location row).country = some Country.swe) ∧
    (pyLower row.stock_region_name = "oceanic" →
      (Slice.get_location row).country = some Country.gbr) ∧
    (pyLower row.stock_region_name ∉
        (["continental", "mediterranean", "nordic", "oceanic"] : List String) →
      (Slice.get_location row).country = some Country.deu) := by
  simp only [Slice.get_location]
  split_ifs with h1 h2 h3 h4 <;> simp_all

/-- Witness for C9 at concrete regions. -/
theorem claim_C9_region_resolver_total_witness :
    (Slice.get_location (Slice.regionRow "Mediterranean")).country =
      some Country.ita ∧
    (Slice.get_location (Slice.regionRow "Atlantis")).country =
      some Country.deu ∧
    (Slice.get_location (Slice.regionRow "Atlantis")).country ≠
      some Country.unknown := by
  refine ⟨?_, ?_, ?_⟩
  · exact (claim_C9_region_resolver_total _).2.2.1 (by decide)
  · exact (claim_C9_region_resolver_total _).2.2.2.2.2 (by decide)
  · exact (claim_C9_region_resolver_total _).1

theorem familyMatch_none (family : String) (table : SynonymTable)
    (data : String)
    (h : ∀ key syns, (key, syns) ∈ table →
      strStartsWith key (family ++ ".") = true → pyLower data ∉ syns) :
    familyMatch family table data = none := by
  induction table with
  | nil => rfl
  | cons hd tl ih =>
      obtain ⟨key, syns⟩ := hd
      have htl : ∀ key syns, (key, syns) ∈ tl →
          strStartsWith key (family ++ ".") = true → pyLower data ∉ syns :=
        fun k s hk => h k s (List.mem_cons_of_mem _ hk)
      by_cases hs : strStartsWith key (family ++ ".") = true
      · have hnotin := h key syns (List.mem_cons_self _ _) hs
        simp [familyMatch, hs, List.elem_iff, hnotin, ih htl]
      · simp [familyMatch, hs, ih htl]

/-- Claim C3: for every closed enum family (building type, building
typology, general energy class, roof type) and every raw value matching no
configured synonym, the normalizer raises (here: returns the error carrying
the family name and the raw input) and never silently returns a variant. -/
theorem claim_C3_unknown_category_raises (table : SynonymTable)
    (data : String) :
    ((∀ key syns, (key, syns) ∈ table →
        strStartsWith key "building_type." = true → pyLower data ∉ syns) →
      Slice.get_building_type table data =
        .error ("Unknown building type: " ++ data)) ∧
    ((∀ key syns, (key, syns) ∈ table →
        strStartsWith key "building_typology." = true → pyLower data ∉ syns) →
      Slice.get_building_typology table data =
        .error ("Unknown building typology: " ++ data)) ∧
    ((∀ key syns, (key, syns) ∈ table →
        strStartsWith key "general_energy_class." = true →
          pyLower data ∉ syns) →
      Slice.get_general_energy_class table data =
        .error ("Unknown general energy class: " ++ data)) ∧
    ((∀ key syns, (key, syns) ∈ table →
        strStartsWith key "roof_type." = true → pyLower data ∉ syns) →
      Carbenmats.get_roof_type table data =
        .error ("Unknown roof type: " ++ data)) := by
  refine ⟨fun h => ?_, fun h => ?_, fun h => ?_, fun h => ?_⟩
  · simp [Slice.get_building_type,
      familyMatch_none "building_type" table data h]
  · simp [Slice.get_building_typology,
      familyMatch_none "building_typology" table data h]
  · simp [Slice.get_general_energy_class,
      familyMatch_none "general_energy_class" table data h]
  · simp [Carbenmats.get_roof_type,
      familyMatch_none "roof_type" table data h]

/-- Witness for C3: the unmatched raw value `"Spaceship"` raises in all
four families over a concrete table. -/
theorem claim_C3_unknown_category_raises_witness :
    Slice.get_building_type table0 "Spaceship" =
      .error "Unknown building type: Spaceship" ∧
    Slice.get_building_typology table0 "Spaceship" =
      .error "Unknown building typology: Spaceship" ∧
    Slice.get_general_energy_class table0 "Spaceship" =
      .error "Unknown general energy class: Spaceship" ∧
    Carbenmats.get_roof_type table0 "Spaceship" =
      .error "Unknown roof type: Spaceship" := by
  have h := claim_C3_unknown_category_raises table0 "Spaceship"
  refine ⟨h.1 ?_, h.2.1 ?_, h.2.2.1 ?_, h.2.2.2 ?_⟩ <;>
    · intro key syns hmem hstart
      simp only [table0, List.mem_cons, List.not_mem_nil, or_false,
        Prod.mk.injEq] at hmem
      rcases hmem with ⟨rfl, rfl⟩ | ⟨rfl, rfl⟩ | ⟨rfl, rfl⟩ | ⟨rfl, rfl⟩ <;>
        decide

/-- Claim C4, counterexample: over a concrete stand-in country database,
the CarbEnMats resolver propagates the lookup failure (`KeyError`) for the
unrecognized value `"Atlantis"` instead of returning the `unknown`
variant — country resolution is not failure-free across the repository. -/
theorem claim_C4_counterexample :
    isoTable0 "Atlantis" = none ∧
    Carbenmats.get_country isoTable0 "Atlantis" =
      .error "KeyError: Atlantis" ∧
    Carbenmats.get_country isoTable0 "Atlantis" ≠
      .ok (some Country.unknown) ∧
    BECD.get_country isoTable0 "Atlantis" = some Country.unknown := by
  refine ⟨rfl, rfl, ?_, rfl⟩
  have he : Carbenmats.get_country isoTable0 "Atlantis" =
      .error "KeyError: Atlantis" := rfl
  rw [he]
  simp

/-- Claim C4 as amended: for every database content and every raw value the
database does not recognize, the BECD resolver returns the explicit
`unknown` variant, while the CarbEnMats resolver raises (`KeyError`). -/
theorem claim_C4_amended (lookup : String → Option ISOCountry)
    (data : String) (h : lookup data = none) :
    BECD.get_country lookup data = some Country.unknown ∧
    Carbenmats.get_country lookup data = .error ("KeyError: " ++ data) := by
  constructor
  · simp [BECD.get_country, h]
  · simp [Carbenmats.get_country, h]

/-- Witness for the amended C4 at the concrete database and raw value. -/
theorem claim_C4_amended_witness :
    isoTable0 "Atlantis" = none ∧
    BECD.get_country isoTable0 "Atlantis" = some Country.unknown ∧
    Carbenmats.get_country isoTable0 "Atlantis" =
      .error ("KeyError: " ++ "Atlantis") := by
  have h := claim_C4_amended isoTable0 "Atlantis" rfl
  exact ⟨rfl, h.1, h.2⟩

/-- Claim C8: a source value equal to the empty string or to the `"no
data"` placeholder (case-insensitively) resolves to the explicit absent
representation `none` — never to zero and never to the literal placeholder
string — in the CarbEnMats field resolver `get_value_or_none` and in the
BECD `get_location` city normalization. -/
theorem claim_C8_no_data_normalization (m row : String → String)
    (key : String) (lookup : String → Option ISOCountry)
    (city country : String) :
    ((row (m key) = "" ∨ pyLower (row (m key)) = "no data") →
      Carbenmats.get_value_or_none m row key = none) ∧
    ((city = "" ∨ pyLower city = "no data") →
      (BECD.get_location lookup city country).city = none) := by
  constructor
  · rintro (h | h) <;> simp [Carbenmats.get_value_or_none, pyTruthy, h]
  · rintro (h | h) <;> simp [BECD.get_location, pyTruthy, h]

/-- Witness for C8: the literal placeholder `"No Data"` and the empty
string both resolve to `none`. -/
theorem claim_C8_no_data_normalization_witness :
    pyLower "No Data" = "no data" ∧
    Carbenmats.get_value_or_none id (fun _ => "No Data") "lca_RSP" = none ∧
    (BECD.get_location isoTable0 "No Data" "Germany").city = none ∧
    (BECD.get_location isoTable0 "" "Germany").city = none := by
  refine ⟨by decide, ?_, ?_, ?_⟩
  · exact (claim_C8_no_data_normalization id (fun _ => "No Data") "lca_RSP"
      isoTable0 "" "").1 (Or.inr (by decide))
  · exact (claim_C8_no_data_normalization id id "" isoTable0 "No Data"
      "Germany").2 (Or.inr (by decide))
  · exact (claim_C8_no_data_normalization id id "" isoTable0 ""
      "Germany").2 (Or.inl rfl)

/-- Claim C7: a BECD row flagged `EmissionsIncluded == "No"` builds no
assembly or product — `update_project` returns the project fully unchanged,
and the row loop leaves an existing project's entry (and the whole project
table) intact — while a previously-unseen `EntityCode` still registers the
`add_project` shell, whose assembly table is empty for such a row. -/
theorem claim_C7_exclusion_flag (table : SynonymTable)
    (lookup : String → Option ISOCountry)
    (projects : List (String × BECD.BProject)) (row : BECD.BRow)
    (hNo : row "EmissionsIncluded" = "No") :
    (∀ p : BECD.BProject, BECD.update_project p row = .ok p) ∧
    (∀ p0, dictGet? projects (row "EntityCode") = some p0 →
      BECD.processRow table lookup projects row = .ok projects) ∧
    (dictContains projects (row "EntityCode") = false →
      BECD.processRow table lookup projects row =
        (BECD.add_project table lookup row).map
          (fun p => dictSet projects (row "EntityCode") p)) ∧
    (∀ p, BECD.add_project table lookup row = .ok p → p.assemblies = []) := by
  have hup : ∀ p : BECD.BProject, BECD.update_project p row = .ok p := by
    intro p
    simp [BECD.update_project, hNo]
  refine ⟨hup, ?_, ?_, ?_⟩
  · intro p0 h0
    have hc : dictContains projects (row "EntityCode") = true :=
      (dictContains_iff_get _ _).mpr ⟨p0, h0⟩
    simp [BECD.processRow, hc, h0, hup, dictSet_self _ _ _ h0]
  · intro hnc
    cases h : BECD.add_project table lookup row <;>
      simp [BECD.processRow, hnc, h, Except.map]
  · intro p hp
    unfold BECD.add_project at hp
    repeat' split at hp
    all_goals simp [BECD.update_project, hNo] at hp
    all_goals subst hp
    all_goals rfl

/-- Witness for C7: the concrete excluded row leaves a seen project table
unchanged and registers a shell for an unseen one. -/
theorem claim_C7_exclusion_flag_witness :
    BECD.becdRow0 "EmissionsIncluded" = "No" ∧
    BECD.update_project BECD.blankBProject BECD.becdRow0 =
      .ok BECD.blankBProject ∧
    BECD.processRow BECD.becdTable0 isoTable0
        [("BECD-0001", BECD.blankBProject)] BECD.becdRow0 =
      .ok [("BECD-0001", BECD.blankBProject)] ∧
    BECD.processRow BECD.becdTable0 isoTable0 [] BECD.becdRow0 =
      (BECD.add_project BECD.becdTable0 isoTable0 BECD.becdRow0).map
        (fun p => dictSet [] (BECD.becdRow0 "EntityCode") p) ∧
    (BECD.add_project BECD.becdTable0 isoTable0 BECD.becdRow0).isOk =
      true := by
  have h := claim_C7_exclusion_flag BECD.becdTable0 isoTable0
    [("BECD-0001", BECD.blankBProject)] BECD.becdRow0 rfl
  have h2 := claim_C7_exclusion_flag BECD.becdTable0 isoTable0 []
    BECD.becdRow0 rfl
  exact ⟨rfl, h.1 BECD.blankBProject, h.2.1 BECD.blankBProject rfl,
    h2.2.2.1 rfl, rfl⟩

namespace Carbenmats

theorem stageKey_split (st : LifeCycleStage) :
    pySplit (stageKey st) '.' = ["results", "gwp", st.value] := by
  cases st <;> decide

theorem ofName_value (st : LifeCycleStage) :
    LifeCycleStage.ofName st.value = some st := by
  cases st <;> rfl

theorem loop_ok (row : String → String) :
    ∀ (sts : List (LifeCycleStage × String))
      (inner : List (LifeCycleStage × ℚ)),
    (∀ p ∈ sts, pyTruthy (row p.2) = true →
      (pyFloat (row p.2)).isSome = true) →
    resultsLoop row (sts.map fun p => (stageKey p.1, p.2))
        [(ImpactCategoryKey.gwp, inner)] =
      .ok [(ImpactCategoryKey.gwp, foldStages row sts inner)] := by
  intro sts
  induction sts with
  | nil => intro inner _; rfl
  | cons hd tl ih =>
      intro inner h
      obtain ⟨st, col⟩ := hd
      by_cases ht : pyTruthy (row col) = true
      · obtain ⟨v, hv⟩ : ∃ v, pyFloat (row col) = some v :=
          Option.isSome_iff_exists.mp (h _ (List.mem_cons_self _ _) ht)
        simp [List.map_cons, resultsLoop, foldStages, ht, hv,
          stageKey_split, ofName_value, ImpactCategoryKey.ofName,
          dictGet?, dictSet]
        exact ih _ (fun p hp => h p (List.mem_cons_of_mem _ hp))
      · simp [resultsLoop, foldStages, ht]
        exact ih _ (fun p hp => h p (List.mem_cons_of_mem _ hp))


theorem foldStages_get_other (row : String → String) :
    ∀ (sts : List (LifeCycleStage × String))
      (inner : List (LifeCycleStage × ℚ)) (st : LifeCycleStage),
    st ∉ sts.map Prod.fst →
    dictGet? (foldStages row sts inner) st = dictGet? inner st := by
  intro sts
  induction sts with
  | nil => intro inner st _; rfl
  | cons hd tl ih =>
      intro inner st hst
      obtain ⟨st', col'⟩ := hd
      simp only [List.map_cons, List.mem_cons] at hst
      push_neg at hst
      by_cases ht : pyTruthy (row col') = true
      · simp only [foldStages, ht, if_true, ite_true]
        rw [ih _ st hst.2, dictGet?_set_other _ _ _ _ hst.1.symm]
      · simp only [foldStages, ht, Bool.not_eq_true] at ht ⊢
        simp only [ht, Bool.false_eq_true, if_false, ite_false]
        exact ih _ st hst.2

theorem foldStages_get_mem (row : String → String) :
    ∀ (sts : List (LifeCycleStage × String))
      (inner : List (LifeCycleStage × ℚ)) (st : LifeCycleStage)
      (col : String),
    (sts.map Prod.fst).Nodup → (st, col) ∈ sts →
    dictGet? (foldStages row sts inner) st =
      if pyTruthy (row col) = true then
        some ((pyFloat (row col)).getD 0 * 50)
      else dictGet? inner st := by
  intro sts
  induction sts with
  | nil => intro inner st col _ hmem; cases hmem
  | cons hd tl ih =>
      intro inner st col hnd hmem
      obtain ⟨st', col'⟩ := hd
      simp only [List.map_cons, List.nodup_cons] at hnd
      rcases List.mem_cons.mp hmem with heq | hmem'
      · obtain ⟨h1, h2⟩ := Prod.ext_iff.mp heq
        dsimp at h1 h2
        subst h1
        subst h2
        by_cases ht : pyTruthy (row col) = true
        · simp only [foldStages, ht, ite_true]
          rw [foldStages_get_other row tl _ st hnd.1, dictGet?_set_same]
        · simp only [Bool.not_eq_true] at ht
          simp only [foldStages, ht, Bool.false_eq_true, ite_false, if_false]
          exact foldStages_get_other row tl _ st hnd.1
      · have hstne : st' ≠ st := by
          intro hx
          exact hnd.1 (hx ▸ List.mem_map_of_mem Prod.fst hmem')
        by_cases ht : pyTruthy (row col') = true
        · simp only [foldStages, ht, ite_true]
          rw [ih _ st col hnd.2 hmem', dictGet?_set_other _ _ _ _ hstne]
        · simp only [foldStages, ht, Bool.not_eq_true] at ht ⊢
          simp only [ht, Bool.false_eq_true, if_false, ite_false]
          exact ih _ st col hnd.2 hmem'

theorem foldStages_all_empty (row : String → String) :
    ∀ (sts : List (LifeCycleStage × String))
      (inner : List (LifeCycleStage × ℚ)),
    (∀ p ∈ sts, pyTruthy (row p.2) = false) →
    foldStages row sts inner = inner := by
  intro sts
  induction sts with
  | nil => intro inner _; rfl
  | cons hd tl ih =>
      intro inner h
      obtain ⟨st', col'⟩ := hd
      have h0 := h _ (List.mem_cons_self _ _)
      simp only [foldStages, h0, Bool.false_eq_true, if_false, ite_false]
      exact ih _ (fun p hp => h p (List.mem_cons_of_mem _ hp))


theorem get_results_eq (sts : List (LifeCycleStage × String))
    (row : String → String)
    (hpar : ∀ p ∈ sts, pyTruthy (row p.2) = true →
      (pyFloat (row p.2)).isSome = true) :
    get_results (sts.map fun p => (stageKey p.1, p.2)) row =
      .ok (if (foldStages row sts []).isEmpty then none
           else some [(ImpactCategoryKey.gwp, foldStages row sts [])]) := by
  simp [get_results, loop_ok row sts [] hpar, dictGet?]

end Carbenmats

/-- Claim C10: every stored CarbEnMats project-level result cell is the
parsed source value multiplied by exactly 50; cells with empty source
values are omitted entirely; and a row with no non-empty result cell gets
`results = None`. -/
theorem claim_C10_results_times_fifty (sts : List (LifeCycleStage × String))
    (row : String → String) (hnd : (sts.map Prod.fst).Nodup)
    (hpar : ∀ p ∈ sts, pyTruthy (row p.2) = true →
      (pyFloat (row p.2)).isSome = true) :
    (Carbenmats.get_results
        (sts.map fun p => (Carbenmats.stageKey p.1, p.2)) row).isOk = true ∧
    (∀ st col v, (st, col) ∈ sts → pyTruthy (row col) = true →
      pyFloat (row col) = some v →
      Carbenmats.cellOfResult
          (Carbenmats.get_results
            (sts.map fun p => (Carbenmats.stageKey p.1, p.2)) row) st =
        some (v * 50)) ∧
    (∀ st col, (st, col) ∈ sts → pyTruthy (row col) = false →
      Carbenmats.cellOfResult
          (Carbenmats.get_results
            (sts.map fun p => (Carbenmats.stageKey p.1, p.2)) row) st =
        none) ∧
    ((∀ p ∈ sts, pyTruthy (row p.2) = false) →
      Carbenmats.get_results
          (sts.map fun p => (Carbenmats.stageKey p.1, p.2)) row =
        .ok none) := by
  have heq := Carbenmats.get_results_eq sts row hpar
  refine ⟨?_, ?_, ?_, ?_⟩
  · rw [heq]
    rfl
  · intro st col v hmem htr hv
    have hcell : dictGet? (Carbenmats.foldStages row sts []) st =
        some (v * 50) := by
      rw [Carbenmats.foldStages_get_mem row sts [] st col hnd hmem]
      simp [htr, hv]
    have hne : (Carbenmats.foldStages row sts []).isEmpty = false := by
      cases hF : Carbenmats.foldStages row sts [] with
      | nil => rw [hF] at hcell; cases hcell
      | cons a l => rfl
    rw [heq]
    simp [Carbenmats.cellOfResult, Carbenmats.cellOf, hne, dictGet?, hcell]
  · intro st col hmem htr
    have hcell : dictGet? (Carbenmats.foldStages row sts []) st = none := by
      rw [Carbenmats.foldStages_get_mem row sts [] st col hnd hmem]
      simp [htr, dictGet?]
    rw [heq]
    by_cases hE : (Carbenmats.foldStages row sts []).isEmpty = true <;>
      simp [Carbenmats.cellOfResult, Carbenmats.cellOf, hE, dictGet?, hcell]
  · intro hall
    rw [heq, Carbenmats.foldStages_all_empty row sts [] hall]
    rfl

/-- Witness for C10: over the converter's actual six result items, the row
with `GHG_A123_total = "2"` stores `2 * 50` under stage `a1a3` and omits
the empty `a4` cell, while the all-empty row yields `results = None`. -/
theorem claim_C10_results_times_fifty_witness :
    Carbenmats.result_items =
      (Carbenmats.sts0.map fun p => (Carbenmats.stageKey p.1, p.2)) ∧
    pyFloat "2" = some 2 ∧
    Carbenmats.cellOfResult
        (Carbenmats.get_results Carbenmats.result_items Carbenmats.rowCM)
        LifeCycleStage.a1a3 = some (2 * 50) ∧
    Carbenmats.cellOfResult
        (Carbenmats.get_results Carbenmats.result_items Carbenmats.rowCM)
        LifeCycleStage.a4 = none ∧
    Carbenmats.get_results Carbenmats.result_items (fun _ => "") =
      .ok none := by
  have hitems : Carbenmats.result_items =
      (Carbenmats.sts0.map fun p => (Carbenmats.stageKey p.1, p.2)) := by
    decide
  have h2 : pyFloat "2" = some 2 := by
    simp [pyFloat, splitCharAux, digitsToNat?]
  have h := claim_C10_results_times_fifty Carbenmats.sts0 Carbenmats.rowCM
    (by decide) (by decide)
  have he := claim_C10_results_times_fifty Carbenmats.sts0 (fun _ => "")
    (by decide) (by decide)
  refine ⟨hitems, h2, ?_, ?_, ?_⟩
  · rw [hitems]
    exact h.2.1 LifeCycleStage.a1a3 "GHG_A123_total" 2 (by decide) (by decide)
      h2
  · rw [hitems]
    exact h.2.2.1 LifeCycleStage.a4 "GHG_A45_total" (by decide) (by decide)
  · rw [hitems]
    exact he.2.2.2 (by decide)

end Converters
